import Mathlib

set_option maxHeartbeats 1600000

set_option maxRecDepth 8000

namespace Betaflight

/-- Storage type of a setting value: the VAR_UINT8 / VAR_INT8 / VAR_UINT16 /
VAR_INT16 width-and-signedness tags on the source's valueTable entries. -/
inductive StorageType where
  | u8
  | i8
  | u16
  | i16
deriving DecidableEq, Repr

/-- Byte width read and written for a storage type. -/
def StorageType.width : StorageType → Nat
  | .u8 => 1
  | .i8 => 1
  | .u16 => 2
  | .i16 => 2

/-- Whether the storage type is signed. -/
def StorageType.signed : StorageType → Bool
  | .u8 => false
  | .i8 => true
  | .u16 => false
  | .i16 => true

/-- Smallest representable value of the storage type. -/
def StorageType.typeMin : StorageType → Int
  | .u8 => 0
  | .i8 => -128
  | .u16 => 0
  | .i16 => -32768

/-- Largest representable value of the storage type. -/
def StorageType.typeMax : StorageType → Int
  | .u8 => 255
  | .i8 => 127
  | .u16 => 65535
  | .i16 => 32767

/-- Scope class of a setting: MASTER_VALUE, PROFILE_VALUE or PROFILE_RATE_VALUE
in the source's mode bits. -/
inductive ScopeClass where
  | global
  | profile
  | rateProfile
deriving DecidableEq, Repr

/-- Value constraint of a setting: the source's .config.minmax payload (an
inclusive range) or its .config.lookup payload (a reference to an enumeration
table by index). -/
inductive Constraint where
  | range (lo hi : Int)
  | enumeration (tableId : Nat)
deriving DecidableEq, Repr

/-- A field location inside a configuration-group struct, written
offsetof(struct, field) in the source; kept symbolic because the struct
layouts are declared outside this file. -/
structure FieldRef where
  struct : String
  field : String
deriving DecidableEq, Repr

/-- Labels of lookupTableOffOn from the source file. -/
def lookupTableOffOn : List String :=
  ["OFF", "ON"]

/-- Labels of lookupTableUnit from the source file. -/
def lookupTableUnit : List String :=
  ["IMPERIAL", "METRIC"]

/-- Labels of lookupTableAlignment from the source file. -/
def lookupTableAlignment : List String :=
  ["DEFAULT", "CW0", "CW90", "CW180", "CW270", "CW0FLIP", "CW90FLIP", "CW180FLIP", "CW270FLIP"]

/-- Labels of lookupTableGPSProvider from the source file. -/
def lookupTableGPSProvider : List String :=
  ["NMEA", "UBLOX"]

/-- Labels of lookupTableGPSSBASMode from the source file. -/
def lookupTableGPSSBASMode : List String :=
  ["AUTO", "EGNOS", "WAAS", "MSAS", "GAGAN"]

/-- Labels of lookupTableBlackboxDevice from the source file. -/
def lookupTableBlackboxDevice : List String :=
  ["NONE", "SPIFLASH", "SDCARD", "SERIAL"]

/-- Labels of lookupTableCurrentSensor from the source file. -/
def lookupTableCurrentSensor : List String :=
  ["NONE", "ADC", "VIRTUAL", "ESC"]

/-- Labels of lookupTableBatterySensor from the source file. -/
def lookupTableBatterySensor : List String :=
  ["NONE", "ADC", "ESC"]

/-- Labels of lookupTableGimbalMode from the source file. -/
def lookupTableGimbalMode : List String :=
  ["NORMAL", "MIXTILT"]

/-- Labels of lookupTableSerialRX from the source file. -/
def lookupTableSerialRX : List String :=
  ["SPEK1024", "SPEK2048", "SBUS", "SUMD", "SUMH", "XB-B", "XB-B-RJ01", "IBUS", "JETIEXBUS", "CRSF", "SRXL"]

/-- Labels of lookupTableRxSpi from the source file. -/
def lookupTableRxSpi : List String :=
  ["V202_250K", "V202_1M", "SYMA_X", "SYMA_X5C", "CX10", "CX10A", "H8_3D", "INAV"]

/-- Labels of lookupTableGyroLpf from the source file. -/
def lookupTableGyroLpf : List String :=
  ["OFF", "188HZ", "98HZ", "42HZ", "20HZ", "10HZ", "5HZ", "EXPERIMENTAL"]

/-- Labels of lookupTableAccHardware from the source file. -/
def lookupTableAccHardware : List String :=
  ["AUTO", "NONE", "ADXL345", "MPU6050", "MMA8452", "BMA280", "LSM303DLHC", "MPU6000", "MPU6500", "MPU9250", "ICM20601", "ICM20602", "ICM20608", "ICM20689", "BMI160", "FAKE"]

/-- Labels of lookupTableBaroHardware from the source file. -/
def lookupTableBaroHardware : List String :=
  ["AUTO", "NONE", "BMP085", "MS5611", "BMP280"]

/-- Labels of lookupTableMagHardware from the source file. -/
def lookupTableMagHardware : List String :=
  ["AUTO", "NONE", "HMC5883", "AK8975", "AK8963"]

/-- Labels of lookupTableDebug from the source file. -/
def lookupTableDebug : List String :=
  ["NONE", "CYCLETIME", "BATTERY", "GYRO", "ACCELEROMETER", "MIXER", "AIRMODE", "PIDLOOP", "NOTCH", "RC_INTERPOLATION", "VELOCITY", "DFILTER", "ANGLERATE", "ESC_SENSOR", "SCHEDULER", "STACK", "ESC_SENSOR_RPM", "ESC_SENSOR_TMP", "ALTITUDE"]

/-- Labels of lookupTableSuperExpoYaw from the source file. -/
def lookupTableSuperExpoYaw : List String :=
  ["OFF", "ON", "ALWAYS"]

/-- Labels of lookupTablePwmProtocol from the source file. -/
def lookupTablePwmProtocol : List String :=
  ["OFF", "ONESHOT125", "ONESHOT42", "MULTISHOT", "BRUSHED", "DSHOT150", "DSHOT300", "DSHOT600", "DSHOT1200"]

/-- Labels of lookupTableRcInterpolation from the source file. -/
def lookupTableRcInterpolation : List String :=
  ["OFF", "PRESET", "AUTO", "MANUAL"]

/-- Labels of lookupTableRcInterpolationChannels from the source file. -/
def lookupTableRcInterpolationChannels : List String :=
  ["RP", "RPY", "RPYT"]

/-- Labels of lookupTableLowpassType from the source file. -/
def lookupTableLowpassType : List String :=
  ["PT1", "BIQUAD", "FIR"]

/-- Labels of lookupTableFailsafe from the source file. -/
def lookupTableFailsafe : List String :=
  ["AUTO-LAND", "DROP"]

/-- Labels of lookupTableCrashRecovery from the source file. -/
def lookupTableCrashRecovery : List String :=
  ["OFF", "ON", "BEEP"]

/-- Labels of lookupTableOsdType from the source file. -/
def lookupTableOsdType : List String :=
  ["AUTO", "PAL", "NTSC"]

/-- The lookupTables registration array from the source, in declaration order
(all conditionally compiled tables included, i.e. a full-feature build). -/
def lookupTables : List (List String) :=
  [lookupTableOffOn, lookupTableUnit, lookupTableAlignment, lookupTableGPSProvider, lookupTableGPSSBASMode, lookupTableBlackboxDevice, lookupTableCurrentSensor, lookupTableBatterySensor, lookupTableGimbalMode, lookupTableSerialRX, lookupTableRxSpi, lookupTableGyroLpf, lookupTableAccHardware, lookupTableBaroHardware, lookupTableMagHardware, lookupTableDebug, lookupTableSuperExpoYaw, lookupTablePwmProtocol, lookupTableRcInterpolation, lookupTableRcInterpolationChannels, lookupTableLowpassType, lookupTableFailsafe, lookupTableCrashRecovery, lookupTableOsdType]

/-- Index of this table in the registration array (lookupTableIndex_e). -/
def TABLE_OFF_ON : Nat := 0

/-- Index of this table in the registration array (lookupTableIndex_e). -/
def TABLE_UNIT : Nat := 1

/-- Index of this table in the registration array (lookupTableIndex_e). -/
def TABLE_ALIGNMENT : Nat := 2

/-- Index of this table in the registration array (lookupTableIndex_e). -/
def TABLE_GPS_PROVIDER : Nat := 3

/-- Index of this table in the registration array (lookupTableIndex_e). -/
def TABLE_GPS_SBAS_MODE : Nat := 4

/-- Index of this table in the registration array (lookupTableIndex_e). -/
def TABLE_BLACKBOX_DEVICE : Nat := 5

/-- Index of this table in the registration array (lookupTableIndex_e). -/
def TABLE_CURRENT_METER : Nat := 6

/-- Index of this table in the registration array (lookupTableIndex_e). -/
def TABLE_VOLTAGE_METER : Nat := 7

/-- Index of this table in the registration array (lookupTableIndex_e). -/
def TABLE_GIMBAL_MODE : Nat := 8

/-- Index of this table in the registration array (lookupTableIndex_e). -/
def TABLE_SERIAL_RX : Nat := 9

/-- Index of this table in the registration array (lookupTableIndex_e). -/
def TABLE_RX_SPI : Nat := 10

/-- Index of this table in the registration array (lookupTableIndex_e). -/
def TABLE_GYRO_LPF : Nat := 11

/-- Index of this table in the registration array (lookupTableIndex_e). -/
def TABLE_ACC_HARDWARE : Nat := 12

/-- Index of this table in the registration array (lookupTableIndex_e). -/
def TABLE_BARO_HARDWARE : Nat := 13

/-- Index of this table in the registration array (lookupTableIndex_e). -/
def TABLE_MAG_HARDWARE : Nat := 14

/-- Index of this table in the registration array (lookupTableIndex_e). -/
def TABLE_DEBUG : Nat := 15

/-- Index of this table in the registration array (lookupTableIndex_e). -/
def TABLE_SUPEREXPO_YAW : Nat := 16

/-- Index of this table in the registration array (lookupTableIndex_e). -/
def TABLE_MOTOR_PWM_PROTOCOL : Nat := 17

/-- Index of this table in the registration array (lookupTableIndex_e). -/
def TABLE_RC_INTERPOLATION : Nat := 18

/-- Index of this table in the registration array (lookupTableIndex_e). -/
def TABLE_RC_INTERPOLATION_CHANNELS : Nat := 19

/-- Index of this table in the registration array (lookupTableIndex_e). -/
def TABLE_LOWPASS_TYPE : Nat := 20

/-- Index of this table in the registration array (lookupTableIndex_e). -/
def TABLE_FAILSAFE : Nat := 21

/-- Index of this table in the registration array (lookupTableIndex_e). -/
def TABLE_CRASH_RECOVERY : Nat := 22

/-- Index of this table in the registration array (lookupTableIndex_e). -/
def TABLE_OSD : Nat := 23

/-- Modelled from the spec: the declared number of enumeration tables
(LOOKUP_TABLE_COUNT of lookupTableIndex_e, declared outside src). -/
def LOOKUP_TABLE_COUNT : Nat := 24

/-- Modelled from the spec: numeric range-bound macros declared in repository
headers outside src; the claims do not depend on these particular values. -/
def AUX1 : Int := 4
def BARO_SAMPLE_COUNT_MAX : Int := 48
def CONTROL_RATE_CONFIG_ROLL_PITCH_RATE_MAX : Int := 255
def CONTROL_RATE_CONFIG_TPA_MAX : Int := 100
def CONTROL_RATE_CONFIG_YAW_RATE_MAX : Int := 255
def FRSKY_FORMAT_NMEA : Int := 1
def FRSKY_VFAS_PRECISION_HIGH : Int := 1
def FRSKY_VFAS_PRECISION_LOW : Int := 0
def INT16_MAX : Int := 32767
def INT16_MIN : Int := -32768
def MAX_AUX_CHANNEL_COUNT : Int := 14
def MAX_PID_PROCESS_DENOM : Int := 16
def MAX_SUPPORTED_RC_CHANNEL_COUNT : Int := 18
def OSD_POSCFG_MAX : Int := 3071
def PWM_PULSE_MAX : Int := 2250
def PWM_PULSE_MIN : Int := 750
def PWM_RANGE_MAX : Int := 2000
def PWM_RANGE_MIN : Int := 1000
def PWM_RANGE_ZERO : Int := 0
def RSSI_SCALE_MAX : Int := 255
def RSSI_SCALE_MIN : Int := 1
def RTC6705_POWER_COUNT : Int := 2
def SPEKTRUM_SAT_BIND_DISABLED : Int := 0
def SPEKTRUM_SAT_BIND_MAX : Int := 10
def VBAT_SCALE_MAX : Int := 255
def VBAT_SCALE_MIN : Int := 0

/-- Parameter group identifiers appearing in valueTable (parameter_group_ids). -/
inductive PgId where
  | PG_GYRO_CONFIG
  | PG_ACCELEROMETER_CONFIG
  | PG_COMPASS_CONFIG
  | PG_BAROMETER_CONFIG
  | PG_RX_CONFIG
  | PG_PWM_CONFIG
  | PG_BLACKBOX_CONFIG
  | PG_MOTOR_CONFIG
  | PG_THROTTLE_CORRECTION_CONFIG
  | PG_FAILSAFE_CONFIG
  | PG_BOARD_ALIGNMENT
  | PG_GIMBAL_CONFIG
  | PG_BATTERY_CONFIG
  | PG_VOLTAGE_SENSOR_ADC_CONFIG
  | PG_CURRENT_SENSOR_ADC_CONFIG
  | PG_CURRENT_SENSOR_VIRTUAL_CONFIG
  | PG_BEEPER_DEV_CONFIG
  | PG_MIXER_CONFIG
  | PG_MOTOR_3D_CONFIG
  | PG_SERVO_CONFIG
  | PG_CONTROL_RATE_PROFILES
  | PG_SERIAL_CONFIG
  | PG_IMU_CONFIG
  | PG_ARMING_CONFIG
  | PG_GPS_CONFIG
  | PG_NAVIGATION_CONFIG
  | PG_AIRPLANE_CONFIG
  | PG_RC_CONTROLS_CONFIG
  | PG_PID_CONFIG
  | PG_PID_PROFILE
  | PG_TELEMETRY_CONFIG
  | PG_LED_STRIP_CONFIG
  | PG_SDCARD_CONFIG
  | PG_OSD_CONFIG
  | PG_SYSTEM_CONFIG
  | PG_VTX_RTC6705_CONFIG
  | PG_VCD_CONFIG
  | PG_DISPLAY_PORT_MSP_CONFIG
  | PG_DISPLAY_PORT_MAX7456_CONFIG
deriving DecidableEq, Repr

/-- One entry of the source's valueTable: a parameter descriptor. -/
structure Descriptor where
  name : String
  type : StorageType
  scope : ScopeClass
  constraint : Constraint
  group : PgId
  offset : FieldRef
deriving DecidableEq, Repr

/-- Entries 0 to 31 of the source's valueTable (declaration order). -/
def valueTableChunk0 : List Descriptor := [
  ⟨"align_gyro", .u8, .global, .enumeration TABLE_ALIGNMENT, .PG_GYRO_CONFIG, ⟨"gyroConfig_t", "gyro_align"⟩⟩,
  ⟨"gyro_lpf", .u8, .global, .enumeration TABLE_GYRO_LPF, .PG_GYRO_CONFIG, ⟨"gyroConfig_t", "gyro_lpf"⟩⟩,
  ⟨"gyro_sync_denom", .u8, .global, .range 1 32, .PG_GYRO_CONFIG, ⟨"gyroConfig_t", "gyro_sync_denom"⟩⟩,
  ⟨"gyro_lowpass_type", .u8, .global, .enumeration TABLE_LOWPASS_TYPE, .PG_GYRO_CONFIG, ⟨"gyroConfig_t", "gyro_soft_lpf_type"⟩⟩,
  ⟨"gyro_lowpass_hz", .u8, .global, .range 0 255, .PG_GYRO_CONFIG, ⟨"gyroConfig_t", "gyro_soft_lpf_hz"⟩⟩,
  ⟨"gyro_notch1_hz", .u16, .global, .range 0 16000, .PG_GYRO_CONFIG, ⟨"gyroConfig_t", "gyro_soft_notch_hz_1"⟩⟩,
  ⟨"gyro_notch1_cutoff", .u16, .global, .range 1 16000, .PG_GYRO_CONFIG, ⟨"gyroConfig_t", "gyro_soft_notch_cutoff_1"⟩⟩,
  ⟨"gyro_notch2_hz", .u16, .global, .range 0 16000, .PG_GYRO_CONFIG, ⟨"gyroConfig_t", "gyro_soft_notch_hz_2"⟩⟩,
  ⟨"gyro_notch2_cutoff", .u16, .global, .range 1 16000, .PG_GYRO_CONFIG, ⟨"gyroConfig_t", "gyro_soft_notch_cutoff_2"⟩⟩,
  ⟨"moron_threshold", .u8, .global, .range 0 200, .PG_GYRO_CONFIG, ⟨"gyroConfig_t", "gyroMovementCalibrationThreshold"⟩⟩,
  ⟨"gyro_use_32khz", .u8, .global, .enumeration TABLE_OFF_ON, .PG_GYRO_CONFIG, ⟨"gyroConfig_t", "gyro_use_32khz"⟩⟩,
  ⟨"gyro_isr_update", .u8, .global, .enumeration TABLE_OFF_ON, .PG_GYRO_CONFIG, ⟨"gyroConfig_t", "gyro_isr_update"⟩⟩,
  ⟨"gyro_to_use", .u8, .global, .range 0 1, .PG_GYRO_CONFIG, ⟨"gyroConfig_t", "gyro_to_use"⟩⟩,
  ⟨"align_acc", .u8, .global, .enumeration TABLE_ALIGNMENT, .PG_ACCELEROMETER_CONFIG, ⟨"accelerometerConfig_t", "acc_align"⟩⟩,
  ⟨"acc_hardware", .u8, .global, .enumeration TABLE_ACC_HARDWARE, .PG_ACCELEROMETER_CONFIG, ⟨"accelerometerConfig_t", "acc_hardware"⟩⟩,
  ⟨"acc_lpf_hz", .u16, .global, .range 0 400, .PG_ACCELEROMETER_CONFIG, ⟨"accelerometerConfig_t", "acc_lpf_hz"⟩⟩,
  ⟨"acc_trim_pitch", .i16, .global, .range (-300) 300, .PG_ACCELEROMETER_CONFIG, ⟨"accelerometerConfig_t", "accelerometerTrims.values.pitch"⟩⟩,
  ⟨"acc_trim_roll", .i16, .global, .range (-300) 300, .PG_ACCELEROMETER_CONFIG, ⟨"accelerometerConfig_t", "accelerometerTrims.values.roll"⟩⟩,
  ⟨"align_mag", .u8, .global, .enumeration TABLE_ALIGNMENT, .PG_COMPASS_CONFIG, ⟨"compassConfig_t", "mag_align"⟩⟩,
  ⟨"mag_hardware", .u8, .global, .enumeration TABLE_MAG_HARDWARE, .PG_COMPASS_CONFIG, ⟨"compassConfig_t", "mag_hardware"⟩⟩,
  ⟨"mag_declination", .i16, .global, .range (-18000) 18000, .PG_COMPASS_CONFIG, ⟨"compassConfig_t", "mag_declination"⟩⟩,
  ⟨"magzero_x", .i16, .global, .range INT16_MIN INT16_MAX, .PG_COMPASS_CONFIG, ⟨"compassConfig_t", "magZero.raw[X]"⟩⟩,
  ⟨"magzero_y", .i16, .global, .range INT16_MIN INT16_MAX, .PG_COMPASS_CONFIG, ⟨"compassConfig_t", "magZero.raw[Y]"⟩⟩,
  ⟨"magzero_z", .i16, .global, .range INT16_MIN INT16_MAX, .PG_COMPASS_CONFIG, ⟨"compassConfig_t", "magZero.raw[Z]"⟩⟩,
  ⟨"baro_hardware", .u8, .global, .enumeration TABLE_BARO_HARDWARE, .PG_BAROMETER_CONFIG, ⟨"barometerConfig_t", "baro_hardware"⟩⟩,
  ⟨"baro_tab_size", .u8, .global, .range 0 BARO_SAMPLE_COUNT_MAX, .PG_BAROMETER_CONFIG, ⟨"barometerConfig_t", "baro_sample_count"⟩⟩,
  ⟨"baro_noise_lpf", .u16, .global, .range 0 1000, .PG_BAROMETER_CONFIG, ⟨"barometerConfig_t", "baro_noise_lpf"⟩⟩,
  ⟨"baro_cf_vel", .u16, .global, .range 0 1000, .PG_BAROMETER_CONFIG, ⟨"barometerConfig_t", "baro_cf_vel"⟩⟩,
  ⟨"baro_cf_alt", .u16, .global, .range 0 1000, .PG_BAROMETER_CONFIG, ⟨"barometerConfig_t", "baro_cf_alt"⟩⟩,
  ⟨"mid_rc", .u16, .global, .range 1200 1700, .PG_RX_CONFIG, ⟨"rxConfig_t", "midrc"⟩⟩,
  ⟨"min_check", .u16, .global, .range PWM_RANGE_ZERO PWM_RANGE_MAX, .PG_RX_CONFIG, ⟨"rxConfig_t", "mincheck"⟩⟩,
  ⟨"max_check", .u16, .global, .range PWM_RANGE_ZERO PWM_RANGE_MAX, .PG_RX_CONFIG, ⟨"rxConfig_t", "maxcheck"⟩⟩
]

/-- Entries 32 to 63 of the source's valueTable (declaration order). -/
def valueTableChunk1 : List Descriptor := [
  ⟨"rssi_channel", .i8, .global, .range 0 MAX_SUPPORTED_RC_CHANNEL_COUNT, .PG_RX_CONFIG, ⟨"rxConfig_t", "rssi_channel"⟩⟩,
  ⟨"rssi_scale", .u8, .global, .range RSSI_SCALE_MIN RSSI_SCALE_MAX, .PG_RX_CONFIG, ⟨"rxConfig_t", "rssi_scale"⟩⟩,
  ⟨"rssi_invert", .i8, .global, .enumeration TABLE_OFF_ON, .PG_RX_CONFIG, ⟨"rxConfig_t", "rssi_invert"⟩⟩,
  ⟨"rc_interp", .u8, .global, .enumeration TABLE_RC_INTERPOLATION, .PG_RX_CONFIG, ⟨"rxConfig_t", "rcInterpolation"⟩⟩,
  ⟨"rc_interp_ch", .u8, .global, .enumeration TABLE_RC_INTERPOLATION_CHANNELS, .PG_RX_CONFIG, ⟨"rxConfig_t", "rcInterpolationChannels"⟩⟩,
  ⟨"rc_interp_int", .u8, .global, .range 1 50, .PG_RX_CONFIG, ⟨"rxConfig_t", "rcInterpolationInterval"⟩⟩,
  ⟨"fpv_mix_degrees", .u8, .global, .range 0 50, .PG_RX_CONFIG, ⟨"rxConfig_t", "fpvCamAngleDegrees"⟩⟩,
  ⟨"max_aux_channels", .u8, .global, .range 0 MAX_AUX_CHANNEL_COUNT, .PG_RX_CONFIG, ⟨"rxConfig_t", "max_aux_channel"⟩⟩,
  ⟨"serialrx_provider", .u8, .global, .enumeration TABLE_SERIAL_RX, .PG_RX_CONFIG, ⟨"rxConfig_t", "serialrx_provider"⟩⟩,
  ⟨"sbus_inversion", .u8, .global, .enumeration TABLE_OFF_ON, .PG_RX_CONFIG, ⟨"rxConfig_t", "sbus_inversion"⟩⟩,
  ⟨"spektrum_sat_bind", .u8, .global, .range SPEKTRUM_SAT_BIND_DISABLED SPEKTRUM_SAT_BIND_MAX, .PG_RX_CONFIG, ⟨"rxConfig_t", "spektrum_sat_bind"⟩⟩,
  ⟨"spektrum_sat_bind_autoreset", .u8, .global, .range 0 1, .PG_RX_CONFIG, ⟨"rxConfig_t", "spektrum_sat_bind_autoreset"⟩⟩,
  ⟨"airmode_start_throttle", .u16, .global, .range 1000 2000, .PG_RX_CONFIG, ⟨"rxConfig_t", "airModeActivateThreshold"⟩⟩,
  ⟨"rx_min_usec", .u16, .global, .range PWM_PULSE_MIN PWM_PULSE_MAX, .PG_RX_CONFIG, ⟨"rxConfig_t", "rx_min_usec"⟩⟩,
  ⟨"rx_max_usec", .u16, .global, .range PWM_PULSE_MIN PWM_PULSE_MAX, .PG_RX_CONFIG, ⟨"rxConfig_t", "rx_max_usec"⟩⟩,
  ⟨"serialrx_halfduplex", .u8, .global, .enumeration TABLE_OFF_ON, .PG_RX_CONFIG, ⟨"rxConfig_t", "halfDuplex"⟩⟩,
  ⟨"input_filtering_mode", .i8, .global, .enumeration TABLE_OFF_ON, .PG_PWM_CONFIG, ⟨"pwmConfig_t", "inputFilteringMode"⟩⟩,
  ⟨"blackbox_rate_num", .u8, .global, .range 1 32, .PG_BLACKBOX_CONFIG, ⟨"blackboxConfig_t", "rate_num"⟩⟩,
  ⟨"blackbox_rate_denom", .u8, .global, .range 1 32, .PG_BLACKBOX_CONFIG, ⟨"blackboxConfig_t", "rate_denom"⟩⟩,
  ⟨"blackbox_device", .u8, .global, .enumeration TABLE_BLACKBOX_DEVICE, .PG_BLACKBOX_CONFIG, ⟨"blackboxConfig_t", "device"⟩⟩,
  ⟨"blackbox_on_motor_test", .u8, .global, .enumeration TABLE_OFF_ON, .PG_BLACKBOX_CONFIG, ⟨"blackboxConfig_t", "on_motor_test"⟩⟩,
  ⟨"blackbox_record_acc", .u8, .global, .enumeration TABLE_OFF_ON, .PG_BLACKBOX_CONFIG, ⟨"blackboxConfig_t", "record_acc"⟩⟩,
  ⟨"min_throttle", .u16, .global, .range PWM_RANGE_ZERO PWM_RANGE_MAX, .PG_MOTOR_CONFIG, ⟨"motorConfig_t", "minthrottle"⟩⟩,
  ⟨"max_throttle", .u16, .global, .range PWM_RANGE_ZERO PWM_RANGE_MAX, .PG_MOTOR_CONFIG, ⟨"motorConfig_t", "maxthrottle"⟩⟩,
  ⟨"min_command", .u16, .global, .range PWM_RANGE_ZERO PWM_RANGE_MAX, .PG_MOTOR_CONFIG, ⟨"motorConfig_t", "mincommand"⟩⟩,
  ⟨"dshot_idle_value", .u16, .global, .range 0 2000, .PG_MOTOR_CONFIG, ⟨"motorConfig_t", "digitalIdleOffsetValue"⟩⟩,
  ⟨"use_unsynced_pwm", .u8, .global, .enumeration TABLE_OFF_ON, .PG_MOTOR_CONFIG, ⟨"motorConfig_t", "dev.useUnsyncedPwm"⟩⟩,
  ⟨"motor_pwm_protocol", .u8, .global, .enumeration TABLE_MOTOR_PWM_PROTOCOL, .PG_MOTOR_CONFIG, ⟨"motorConfig_t", "dev.motorPwmProtocol"⟩⟩,
  ⟨"motor_pwm_rate", .u16, .global, .range 200 32000, .PG_MOTOR_CONFIG, ⟨"motorConfig_t", "dev.motorPwmRate"⟩⟩,
  ⟨"motor_pwm_inversion", .u8, .global, .enumeration TABLE_OFF_ON, .PG_MOTOR_CONFIG, ⟨"motorConfig_t", "dev.motorPwmInversion"⟩⟩,
  ⟨"thr_corr_value", .u8, .global, .range 0 150, .PG_THROTTLE_CORRECTION_CONFIG, ⟨"throttleCorrectionConfig_t", "throttle_correction_value"⟩⟩,
  ⟨"thr_corr_angle", .u16, .global, .range 1 900, .PG_THROTTLE_CORRECTION_CONFIG, ⟨"throttleCorrectionConfig_t", "throttle_correction_angle"⟩⟩
]

/-- Entries 64 to 95 of the source's valueTable (declaration order). -/
def valueTableChunk2 : List Descriptor := [
  ⟨"failsafe_delay", .u8, .global, .range 0 200, .PG_FAILSAFE_CONFIG, ⟨"failsafeConfig_t", "failsafe_delay"⟩⟩,
  ⟨"failsafe_off_delay", .u8, .global, .range 0 200, .PG_FAILSAFE_CONFIG, ⟨"failsafeConfig_t", "failsafe_off_delay"⟩⟩,
  ⟨"failsafe_throttle", .u16, .global, .range PWM_RANGE_MIN PWM_RANGE_MAX, .PG_FAILSAFE_CONFIG, ⟨"failsafeConfig_t", "failsafe_throttle"⟩⟩,
  ⟨"failsafe_kill_switch", .u8, .global, .enumeration TABLE_OFF_ON, .PG_FAILSAFE_CONFIG, ⟨"failsafeConfig_t", "failsafe_kill_switch"⟩⟩,
  ⟨"failsafe_throttle_low_delay", .u16, .global, .range 0 300, .PG_FAILSAFE_CONFIG, ⟨"failsafeConfig_t", "failsafe_throttle_low_delay"⟩⟩,
  ⟨"failsafe_procedure", .u8, .global, .enumeration TABLE_FAILSAFE, .PG_FAILSAFE_CONFIG, ⟨"failsafeConfig_t", "failsafe_procedure"⟩⟩,
  ⟨"align_board_roll", .i16, .global, .range (-180) 360, .PG_BOARD_ALIGNMENT, ⟨"boardAlignment_t", "rollDegrees"⟩⟩,
  ⟨"align_board_pitch", .i16, .global, .range (-180) 360, .PG_BOARD_ALIGNMENT, ⟨"boardAlignment_t", "pitchDegrees"⟩⟩,
  ⟨"align_board_yaw", .i16, .global, .range (-180) 360, .PG_BOARD_ALIGNMENT, ⟨"boardAlignment_t", "yawDegrees"⟩⟩,
  ⟨"gimbal_mode", .u8, .global, .enumeration TABLE_GIMBAL_MODE, .PG_GIMBAL_CONFIG, ⟨"gimbalConfig_t", "mode"⟩⟩,
  ⟨"bat_capacity", .u16, .global, .range 0 20000, .PG_BATTERY_CONFIG, ⟨"batteryConfig_t", "batteryCapacity"⟩⟩,
  ⟨"vbat_max_cell_voltage", .u8, .global, .range 10 50, .PG_BATTERY_CONFIG, ⟨"batteryConfig_t", "vbatmaxcellvoltage"⟩⟩,
  ⟨"vbat_min_cell_voltage", .u8, .global, .range 10 50, .PG_BATTERY_CONFIG, ⟨"batteryConfig_t", "vbatmincellvoltage"⟩⟩,
  ⟨"vbat_warning_cell_voltage", .u8, .global, .range 10 50, .PG_BATTERY_CONFIG, ⟨"batteryConfig_t", "vbatwarningcellvoltage"⟩⟩,
  ⟨"vbat_hysteresis", .u8, .global, .range 0 250, .PG_BATTERY_CONFIG, ⟨"batteryConfig_t", "vbathysteresis"⟩⟩,
  ⟨"current_meter", .u8, .global, .enumeration TABLE_CURRENT_METER, .PG_BATTERY_CONFIG, ⟨"batteryConfig_t", "currentMeterSource"⟩⟩,
  ⟨"battery_meter", .u8, .global, .enumeration TABLE_VOLTAGE_METER, .PG_BATTERY_CONFIG, ⟨"batteryConfig_t", "voltageMeterSource"⟩⟩,
  ⟨"vbat_detect_cell_voltage", .u8, .global, .range 0 200, .PG_BATTERY_CONFIG, ⟨"batteryConfig_t", "vbatnotpresentcellvoltage"⟩⟩,
  ⟨"use_vbat_alerts", .u8, .global, .enumeration TABLE_OFF_ON, .PG_BATTERY_CONFIG, ⟨"batteryConfig_t", "useVBatAlerts"⟩⟩,
  ⟨"use_cbat_alerts", .u8, .global, .enumeration TABLE_OFF_ON, .PG_BATTERY_CONFIG, ⟨"batteryConfig_t", "useConsumptionAlerts"⟩⟩,
  ⟨"cbat_alert_percent", .u8, .global, .range 0 100, .PG_BATTERY_CONFIG, ⟨"batteryConfig_t", "consumptionWarningPercentage"⟩⟩,
  ⟨"vbat_scale", .u8, .global, .range VBAT_SCALE_MIN VBAT_SCALE_MAX, .PG_VOLTAGE_SENSOR_ADC_CONFIG, ⟨"voltageSensorADCConfig_t", "vbatscale"⟩⟩,
  ⟨"ibata_scale", .i16, .global, .range (-16000) 16000, .PG_CURRENT_SENSOR_ADC_CONFIG, ⟨"currentSensorADCConfig_t", "scale"⟩⟩,
  ⟨"ibata_offset", .i16, .global, .range (-16000) 16000, .PG_CURRENT_SENSOR_ADC_CONFIG, ⟨"currentSensorADCConfig_t", "offset"⟩⟩,
  ⟨"ibatv_scale", .i16, .global, .range (-16000) 16000, .PG_CURRENT_SENSOR_VIRTUAL_CONFIG, ⟨"currentSensorVirtualConfig_t", "scale"⟩⟩,
  ⟨"ibatv_offset", .i16, .global, .range (-16000) 16000, .PG_CURRENT_SENSOR_VIRTUAL_CONFIG, ⟨"currentSensorVirtualConfig_t", "offset"⟩⟩,
  ⟨"beeper_inversion", .u8, .global, .enumeration TABLE_OFF_ON, .PG_BEEPER_DEV_CONFIG, ⟨"beeperDevConfig_t", "isInverted"⟩⟩,
  ⟨"beeper_od", .u8, .global, .enumeration TABLE_OFF_ON, .PG_BEEPER_DEV_CONFIG, ⟨"beeperDevConfig_t", "isOpenDrain"⟩⟩,
  ⟨"beeper_frequency", .i16, .global, .range 0 16000, .PG_BEEPER_DEV_CONFIG, ⟨"beeperDevConfig_t", "frequency"⟩⟩,
  ⟨"yaw_motors_reversed", .i8, .global, .enumeration TABLE_OFF_ON, .PG_MIXER_CONFIG, ⟨"mixerConfig_t", "yaw_motors_reversed"⟩⟩,
  ⟨"3d_deadband_low", .u16, .global, .range PWM_RANGE_ZERO PWM_RANGE_MAX, .PG_MOTOR_3D_CONFIG, ⟨"flight3DConfig_t", "deadband3d_low"⟩⟩,
  ⟨"3d_deadband_high", .u16, .global, .range PWM_RANGE_ZERO PWM_RANGE_MAX, .PG_MOTOR_3D_CONFIG, ⟨"flight3DConfig_t", "deadband3d_high"⟩⟩
]

/-- Entries 96 to 127 of the source's valueTable (declaration order). -/
def valueTableChunk3 : List Descriptor := [
  ⟨"3d_neutral", .u16, .global, .range PWM_RANGE_ZERO PWM_RANGE_MAX, .PG_MOTOR_3D_CONFIG, ⟨"flight3DConfig_t", "neutral3d"⟩⟩,
  ⟨"3d_deadband_throttle", .u16, .global, .range PWM_RANGE_ZERO PWM_RANGE_MAX, .PG_MOTOR_3D_CONFIG, ⟨"flight3DConfig_t", "deadband3d_throttle"⟩⟩,
  ⟨"servo_center_pulse", .u16, .global, .range PWM_RANGE_ZERO PWM_RANGE_MAX, .PG_SERVO_CONFIG, ⟨"servoConfig_t", "dev.servoCenterPulse"⟩⟩,
  ⟨"servo_pwm_rate", .u16, .global, .range 50 498, .PG_SERVO_CONFIG, ⟨"servoConfig_t", "dev.servoPwmRate"⟩⟩,
  ⟨"servo_lowpass_hz", .u16, .global, .range 0 400, .PG_SERVO_CONFIG, ⟨"servoConfig_t", "servo_lowpass_freq"⟩⟩,
  ⟨"tri_unarmed_servo", .i8, .global, .enumeration TABLE_OFF_ON, .PG_SERVO_CONFIG, ⟨"servoConfig_t", "tri_unarmed_servo"⟩⟩,
  ⟨"channel_forwarding_start", .u8, .global, .range AUX1 MAX_SUPPORTED_RC_CHANNEL_COUNT, .PG_SERVO_CONFIG, ⟨"servoConfig_t", "channelForwardingStartChannel"⟩⟩,
  ⟨"rc_rate", .u8, .rateProfile, .range 0 255, .PG_CONTROL_RATE_PROFILES, ⟨"controlRateConfig_t", "rcRate8"⟩⟩,
  ⟨"rc_rate_yaw", .u8, .rateProfile, .range 0 255, .PG_CONTROL_RATE_PROFILES, ⟨"controlRateConfig_t", "rcYawRate8"⟩⟩,
  ⟨"rc_expo", .u8, .rateProfile, .range 0 100, .PG_CONTROL_RATE_PROFILES, ⟨"controlRateConfig_t", "rcExpo8"⟩⟩,
  ⟨"rc_expo_yaw", .u8, .rateProfile, .range 0 100, .PG_CONTROL_RATE_PROFILES, ⟨"controlRateConfig_t", "rcYawExpo8"⟩⟩,
  ⟨"thr_mid", .u8, .rateProfile, .range 0 100, .PG_CONTROL_RATE_PROFILES, ⟨"controlRateConfig_t", "thrMid8"⟩⟩,
  ⟨"thr_expo", .u8, .rateProfile, .range 0 100, .PG_CONTROL_RATE_PROFILES, ⟨"controlRateConfig_t", "thrExpo8"⟩⟩,
  ⟨"roll_srate", .u8, .rateProfile, .range 0 CONTROL_RATE_CONFIG_ROLL_PITCH_RATE_MAX, .PG_CONTROL_RATE_PROFILES, ⟨"controlRateConfig_t", "rates[FD_ROLL]"⟩⟩,
  ⟨"pitch_srate", .u8, .rateProfile, .range 0 CONTROL_RATE_CONFIG_ROLL_PITCH_RATE_MAX, .PG_CONTROL_RATE_PROFILES, ⟨"controlRateConfig_t", "rates[FD_PITCH]"⟩⟩,
  ⟨"yaw_srate", .u8, .rateProfile, .range 0 CONTROL_RATE_CONFIG_YAW_RATE_MAX, .PG_CONTROL_RATE_PROFILES, ⟨"controlRateConfig_t", "rates[FD_YAW]"⟩⟩,
  ⟨"tpa_rate", .u8, .rateProfile, .range 0 CONTROL_RATE_CONFIG_TPA_MAX, .PG_CONTROL_RATE_PROFILES, ⟨"controlRateConfig_t", "dynThrPID"⟩⟩,
  ⟨"tpa_breakpoint", .u16, .rateProfile, .range PWM_RANGE_MIN PWM_RANGE_MAX, .PG_CONTROL_RATE_PROFILES, ⟨"controlRateConfig_t", "tpa_breakpoint"⟩⟩,
  ⟨"reboot_character", .u8, .global, .range 48 126, .PG_SERIAL_CONFIG, ⟨"serialConfig_t", "reboot_character"⟩⟩,
  ⟨"serial_update_rate_hz", .u16, .global, .range 100 2000, .PG_SERIAL_CONFIG, ⟨"serialConfig_t", "serial_update_rate_hz"⟩⟩,
  ⟨"accxy_deadband", .u8, .global, .range 0 100, .PG_IMU_CONFIG, ⟨"imuConfig_t", "accDeadband.xy"⟩⟩,
  ⟨"accz_deadband", .u8, .global, .range 0 100, .PG_IMU_CONFIG, ⟨"imuConfig_t", "accDeadband.z"⟩⟩,
  ⟨"acc_unarmedcal", .u8, .global, .enumeration TABLE_OFF_ON, .PG_IMU_CONFIG, ⟨"imuConfig_t", "acc_unarmedcal"⟩⟩,
  ⟨"imu_dcm_kp", .u16, .global, .range 0 32000, .PG_IMU_CONFIG, ⟨"imuConfig_t", "dcm_kp"⟩⟩,
  ⟨"imu_dcm_ki", .u16, .global, .range 0 32000, .PG_IMU_CONFIG, ⟨"imuConfig_t", "dcm_ki"⟩⟩,
  ⟨"small_angle", .u8, .global, .range 0 180, .PG_IMU_CONFIG, ⟨"imuConfig_t", "small_angle"⟩⟩,
  ⟨"auto_disarm_delay", .u8, .global, .range 0 60, .PG_ARMING_CONFIG, ⟨"armingConfig_t", "auto_disarm_delay"⟩⟩,
  ⟨"disarm_kill_switch", .u8, .global, .enumeration TABLE_OFF_ON, .PG_ARMING_CONFIG, ⟨"armingConfig_t", "disarm_kill_switch"⟩⟩,
  ⟨"gyro_cal_on_first_arm", .u8, .global, .enumeration TABLE_OFF_ON, .PG_ARMING_CONFIG, ⟨"armingConfig_t", "gyro_cal_on_first_arm"⟩⟩,
  ⟨"gps_provider", .u8, .global, .enumeration TABLE_GPS_PROVIDER, .PG_GPS_CONFIG, ⟨"gpsConfig_t", "provider"⟩⟩,
  ⟨"gps_sbas_mode", .u8, .global, .enumeration TABLE_GPS_SBAS_MODE, .PG_GPS_CONFIG, ⟨"gpsConfig_t", "sbasMode"⟩⟩,
  ⟨"gps_auto_config", .u8, .global, .enumeration TABLE_OFF_ON, .PG_GPS_CONFIG, ⟨"gpsConfig_t", "autoConfig"⟩⟩
]

/-- Entries 128 to 159 of the source's valueTable (declaration order). -/
def valueTableChunk4 : List Descriptor := [
  ⟨"gps_auto_baud", .u8, .global, .enumeration TABLE_OFF_ON, .PG_GPS_CONFIG, ⟨"gpsConfig_t", "autoBaud"⟩⟩,
  ⟨"gps_wp_radius", .u16, .global, .range 0 2000, .PG_NAVIGATION_CONFIG, ⟨"navigationConfig_t", "gps_wp_radius"⟩⟩,
  ⟨"nav_controls_heading", .u8, .global, .enumeration TABLE_OFF_ON, .PG_NAVIGATION_CONFIG, ⟨"navigationConfig_t", "nav_controls_heading"⟩⟩,
  ⟨"nav_speed_min", .u16, .global, .range 10 2000, .PG_NAVIGATION_CONFIG, ⟨"navigationConfig_t", "nav_speed_min"⟩⟩,
  ⟨"nav_speed_max", .u16, .global, .range 10 2000, .PG_NAVIGATION_CONFIG, ⟨"navigationConfig_t", "nav_speed_max"⟩⟩,
  ⟨"nav_slew_rate", .u8, .global, .range 0 100, .PG_NAVIGATION_CONFIG, ⟨"navigationConfig_t", "nav_slew_rate"⟩⟩,
  ⟨"fixedwing_althold_reversed", .i8, .global, .enumeration TABLE_OFF_ON, .PG_AIRPLANE_CONFIG, ⟨"airplaneConfig_t", "fixedwing_althold_reversed"⟩⟩,
  ⟨"alt_hold_deadband", .u8, .global, .range 1 250, .PG_RC_CONTROLS_CONFIG, ⟨"rcControlsConfig_t", "alt_hold_deadband"⟩⟩,
  ⟨"alt_hold_fast_change", .u8, .global, .enumeration TABLE_OFF_ON, .PG_RC_CONTROLS_CONFIG, ⟨"rcControlsConfig_t", "alt_hold_fast_change"⟩⟩,
  ⟨"deadband", .u8, .global, .range 0 32, .PG_RC_CONTROLS_CONFIG, ⟨"rcControlsConfig_t", "deadband"⟩⟩,
  ⟨"yaw_deadband", .u8, .global, .range 0 100, .PG_RC_CONTROLS_CONFIG, ⟨"rcControlsConfig_t", "yaw_deadband"⟩⟩,
  ⟨"yaw_control_reversed", .i8, .global, .enumeration TABLE_OFF_ON, .PG_RC_CONTROLS_CONFIG, ⟨"rcControlsConfig_t", "yaw_control_reversed"⟩⟩,
  ⟨"pid_process_denom", .u8, .global, .range 1 MAX_PID_PROCESS_DENOM, .PG_PID_CONFIG, ⟨"pidConfig_t", "pid_process_denom"⟩⟩,
  ⟨"dterm_lowpass_type", .u8, .profile, .enumeration TABLE_LOWPASS_TYPE, .PG_PID_PROFILE, ⟨"pidProfile_t", "dterm_filter_type"⟩⟩,
  ⟨"dterm_lowpass", .i16, .profile, .range 0 16000, .PG_PID_PROFILE, ⟨"pidProfile_t", "dterm_lpf_hz"⟩⟩,
  ⟨"dterm_notch_hz", .u16, .profile, .range 0 16000, .PG_PID_PROFILE, ⟨"pidProfile_t", "dterm_notch_hz"⟩⟩,
  ⟨"dterm_notch_cutoff", .u16, .profile, .range 1 16000, .PG_PID_PROFILE, ⟨"pidProfile_t", "dterm_notch_cutoff"⟩⟩,
  ⟨"vbat_pid_gain", .u8, .profile, .enumeration TABLE_OFF_ON, .PG_PID_PROFILE, ⟨"pidProfile_t", "vbatPidCompensation"⟩⟩,
  ⟨"pid_at_min_throttle", .u8, .profile, .enumeration TABLE_OFF_ON, .PG_PID_PROFILE, ⟨"pidProfile_t", "pidAtMinThrottle"⟩⟩,
  ⟨"anti_gravity_threshold", .u16, .profile, .range 20 1000, .PG_PID_PROFILE, ⟨"pidProfile_t", "itermThrottleThreshold"⟩⟩,
  ⟨"anti_gravity_gain", .u16, .profile, .range 1 30000, .PG_PID_PROFILE, ⟨"pidProfile_t", "itermAcceleratorGain"⟩⟩,
  ⟨"setpoint_relax_ratio", .u8, .profile, .range 0 100, .PG_PID_PROFILE, ⟨"pidProfile_t", "setpointRelaxRatio"⟩⟩,
  ⟨"dterm_setpoint_weight", .u8, .profile, .range 0 254, .PG_PID_PROFILE, ⟨"pidProfile_t", "dtermSetpointWeight"⟩⟩,
  ⟨"acc_limit_yaw", .u16, .profile, .range 1 500, .PG_PID_PROFILE, ⟨"pidProfile_t", "yawRateAccelLimit"⟩⟩,
  ⟨"acc_limit", .u16, .profile, .range 1 500, .PG_PID_PROFILE, ⟨"pidProfile_t", "rateAccelLimit"⟩⟩,
  ⟨"crash_dthreshold", .u16, .profile, .range 0 2000, .PG_PID_PROFILE, ⟨"pidProfile_t", "crash_dthreshold"⟩⟩,
  ⟨"crash_gthreshold", .u16, .profile, .range 0 2000, .PG_PID_PROFILE, ⟨"pidProfile_t", "crash_gthreshold"⟩⟩,
  ⟨"crash_time", .u16, .profile, .range 0 5000, .PG_PID_PROFILE, ⟨"pidProfile_t", "crash_time"⟩⟩,
  ⟨"crash_recovery_angle", .u8, .profile, .range 0 30, .PG_PID_PROFILE, ⟨"pidProfile_t", "crash_recovery_angle"⟩⟩,
  ⟨"crash_recovery_rate", .u8, .profile, .range 0 255, .PG_PID_PROFILE, ⟨"pidProfile_t", "crash_recovery_rate"⟩⟩,
  ⟨"crash_recovery", .u8, .profile, .enumeration TABLE_CRASH_RECOVERY, .PG_PID_PROFILE, ⟨"pidProfile_t", "crash_recovery"⟩⟩,
  ⟨"iterm_windup", .u8, .profile, .range 30 100, .PG_PID_PROFILE, ⟨"pidProfile_t", "itermWindupPointPercent"⟩⟩
]

/-- Entries 160 to 191 of the source's valueTable (declaration order). -/
def valueTableChunk5 : List Descriptor := [
  ⟨"yaw_lowpass", .u16, .profile, .range 0 500, .PG_PID_PROFILE, ⟨"pidProfile_t", "yaw_lpf_hz"⟩⟩,
  ⟨"pidsum_limit", .u16, .profile, .range 100 1000, .PG_PID_PROFILE, ⟨"pidProfile_t", "pidSumLimit"⟩⟩,
  ⟨"pidsum_limit_yaw", .u16, .profile, .range 100 1000, .PG_PID_PROFILE, ⟨"pidProfile_t", "pidSumLimitYaw"⟩⟩,
  ⟨"p_pitch", .u8, .profile, .range 0 200, .PG_PID_PROFILE, ⟨"pidProfile_t", "pid[PID_PITCH].P"⟩⟩,
  ⟨"i_pitch", .u8, .profile, .range 0 200, .PG_PID_PROFILE, ⟨"pidProfile_t", "pid[PID_PITCH].I"⟩⟩,
  ⟨"d_pitch", .u8, .profile, .range 0 200, .PG_PID_PROFILE, ⟨"pidProfile_t", "pid[PID_PITCH].D"⟩⟩,
  ⟨"p_roll", .u8, .profile, .range 0 200, .PG_PID_PROFILE, ⟨"pidProfile_t", "pid[PID_ROLL].P"⟩⟩,
  ⟨"i_roll", .u8, .profile, .range 0 200, .PG_PID_PROFILE, ⟨"pidProfile_t", "pid[PID_ROLL].I"⟩⟩,
  ⟨"d_roll", .u8, .profile, .range 0 200, .PG_PID_PROFILE, ⟨"pidProfile_t", "pid[PID_ROLL].D"⟩⟩,
  ⟨"p_yaw", .u8, .profile, .range 0 200, .PG_PID_PROFILE, ⟨"pidProfile_t", "pid[PID_YAW].P"⟩⟩,
  ⟨"i_yaw", .u8, .profile, .range 0 200, .PG_PID_PROFILE, ⟨"pidProfile_t", "pid[PID_YAW].I"⟩⟩,
  ⟨"d_yaw", .u8, .profile, .range 0 200, .PG_PID_PROFILE, ⟨"pidProfile_t", "pid[PID_YAW].D"⟩⟩,
  ⟨"p_alt", .u8, .profile, .range 0 200, .PG_PID_PROFILE, ⟨"pidProfile_t", "pid[PID_ALT].P"⟩⟩,
  ⟨"i_alt", .u8, .profile, .range 0 200, .PG_PID_PROFILE, ⟨"pidProfile_t", "pid[PID_ALT].I"⟩⟩,
  ⟨"d_alt", .u8, .profile, .range 0 200, .PG_PID_PROFILE, ⟨"pidProfile_t", "pid[PID_ALT].D"⟩⟩,
  ⟨"p_level", .u8, .profile, .range 0 200, .PG_PID_PROFILE, ⟨"pidProfile_t", "pid[PID_LEVEL].P"⟩⟩,
  ⟨"i_level", .u8, .profile, .range 0 200, .PG_PID_PROFILE, ⟨"pidProfile_t", "pid[PID_LEVEL].I"⟩⟩,
  ⟨"d_level", .u8, .profile, .range 0 200, .PG_PID_PROFILE, ⟨"pidProfile_t", "pid[PID_LEVEL].D"⟩⟩,
  ⟨"p_vel", .u8, .profile, .range 0 200, .PG_PID_PROFILE, ⟨"pidProfile_t", "pid[PID_VEL].P"⟩⟩,
  ⟨"i_vel", .u8, .profile, .range 0 200, .PG_PID_PROFILE, ⟨"pidProfile_t", "pid[PID_VEL].I"⟩⟩,
  ⟨"d_vel", .u8, .profile, .range 0 200, .PG_PID_PROFILE, ⟨"pidProfile_t", "pid[PID_VEL].D"⟩⟩,
  ⟨"level_sensitivity", .u8, .profile, .range 10 200, .PG_PID_PROFILE, ⟨"pidProfile_t", "levelSensitivity"⟩⟩,
  ⟨"level_limit", .u8, .profile, .range 10 120, .PG_PID_PROFILE, ⟨"pidProfile_t", "levelAngleLimit"⟩⟩,
  ⟨"horizon_tilt_effect", .u8, .profile, .range 0 250, .PG_PID_PROFILE, ⟨"pidProfile_t", "horizon_tilt_effect"⟩⟩,
  ⟨"horizon_tilt_expert_mode", .u8, .profile, .enumeration TABLE_OFF_ON, .PG_PID_PROFILE, ⟨"pidProfile_t", "horizon_tilt_expert_mode"⟩⟩,
  ⟨"gps_pos_p", .u8, .profile, .range 0 200, .PG_PID_PROFILE, ⟨"pidProfile_t", "pid[PID_POS].P"⟩⟩,
  ⟨"gps_pos_i", .u8, .profile, .range 0 200, .PG_PID_PROFILE, ⟨"pidProfile_t", "pid[PID_POS].I"⟩⟩,
  ⟨"gps_pos_d", .u8, .profile, .range 0 200, .PG_PID_PROFILE, ⟨"pidProfile_t", "pid[PID_POS].D"⟩⟩,
  ⟨"gps_posr_p", .u8, .profile, .range 0 200, .PG_PID_PROFILE, ⟨"pidProfile_t", "pid[PID_POSR].P"⟩⟩,
  ⟨"gps_posr_i", .u8, .profile, .range 0 200, .PG_PID_PROFILE, ⟨"pidProfile_t", "pid[PID_POSR].I"⟩⟩,
  ⟨"gps_posr_d", .u8, .profile, .range 0 200, .PG_PID_PROFILE, ⟨"pidProfile_t", "pid[PID_POSR].D"⟩⟩,
  ⟨"gps_nav_p", .u8, .profile, .range 0 200, .PG_PID_PROFILE, ⟨"pidProfile_t", "pid[PID_NAVR].P"⟩⟩
]

/-- Entries 192 to 223 of the source's valueTable (declaration order). -/
def valueTableChunk6 : List Descriptor := [
  ⟨"gps_nav_i", .u8, .profile, .range 0 200, .PG_PID_PROFILE, ⟨"pidProfile_t", "pid[PID_NAVR].I"⟩⟩,
  ⟨"gps_nav_d", .u8, .profile, .range 0 200, .PG_PID_PROFILE, ⟨"pidProfile_t", "pid[PID_NAVR].D"⟩⟩,
  ⟨"tlm_switch", .u8, .global, .enumeration TABLE_OFF_ON, .PG_TELEMETRY_CONFIG, ⟨"telemetryConfig_t", "telemetry_switch"⟩⟩,
  ⟨"tlm_inversion", .u8, .global, .enumeration TABLE_OFF_ON, .PG_TELEMETRY_CONFIG, ⟨"telemetryConfig_t", "telemetry_inversion"⟩⟩,
  ⟨"tlm_halfduplex", .u8, .global, .enumeration TABLE_OFF_ON, .PG_TELEMETRY_CONFIG, ⟨"telemetryConfig_t", "halfDuplex"⟩⟩,
  ⟨"frsky_default_lat", .i16, .global, .range (-9000) 9000, .PG_TELEMETRY_CONFIG, ⟨"telemetryConfig_t", "gpsNoFixLatitude"⟩⟩,
  ⟨"frsky_default_long", .i16, .global, .range (-18000) 18000, .PG_TELEMETRY_CONFIG, ⟨"telemetryConfig_t", "gpsNoFixLongitude"⟩⟩,
  ⟨"frsky_gps_format", .u8, .global, .range 0 FRSKY_FORMAT_NMEA, .PG_TELEMETRY_CONFIG, ⟨"telemetryConfig_t", "frsky_coordinate_format"⟩⟩,
  ⟨"frsky_unit", .u8, .global, .enumeration TABLE_UNIT, .PG_TELEMETRY_CONFIG, ⟨"telemetryConfig_t", "frsky_unit"⟩⟩,
  ⟨"frsky_vfas_precision", .u8, .global, .range FRSKY_VFAS_PRECISION_LOW FRSKY_VFAS_PRECISION_HIGH, .PG_TELEMETRY_CONFIG, ⟨"telemetryConfig_t", "frsky_vfas_precision"⟩⟩,
  ⟨"frsky_vfas_cell_voltage", .u8, .global, .enumeration TABLE_OFF_ON, .PG_TELEMETRY_CONFIG, ⟨"telemetryConfig_t", "frsky_vfas_cell_voltage"⟩⟩,
  ⟨"hott_alarm_int", .u8, .global, .range 0 120, .PG_TELEMETRY_CONFIG, ⟨"telemetryConfig_t", "hottAlarmSoundInterval"⟩⟩,
  ⟨"pid_in_tlm", .u8, .global, .enumeration TABLE_OFF_ON, .PG_TELEMETRY_CONFIG, ⟨"telemetryConfig_t", "pidValuesAsTelemetry"⟩⟩,
  ⟨"ibus_report_cell_voltage", .u8, .global, .enumeration TABLE_OFF_ON, .PG_TELEMETRY_CONFIG, ⟨"telemetryConfig_t", "report_cell_voltage"⟩⟩,
  ⟨"ledstrip_visual_beeper", .u8, .global, .enumeration TABLE_OFF_ON, .PG_LED_STRIP_CONFIG, ⟨"ledStripConfig_t", "ledstrip_visual_beeper"⟩⟩,
  ⟨"sdcard_dma", .u8, .global, .enumeration TABLE_OFF_ON, .PG_SDCARD_CONFIG, ⟨"sdcardConfig_t", "useDma"⟩⟩,
  ⟨"osd_units", .u8, .global, .enumeration TABLE_UNIT, .PG_OSD_CONFIG, ⟨"osdConfig_t", "units"⟩⟩,
  ⟨"osd_rssi_alarm", .u8, .global, .range 0 100, .PG_OSD_CONFIG, ⟨"osdConfig_t", "rssi_alarm"⟩⟩,
  ⟨"osd_cap_alarm", .u16, .global, .range 0 20000, .PG_OSD_CONFIG, ⟨"osdConfig_t", "cap_alarm"⟩⟩,
  ⟨"osd_time_alarm", .u16, .global, .range 0 60, .PG_OSD_CONFIG, ⟨"osdConfig_t", "time_alarm"⟩⟩,
  ⟨"osd_alt_alarm", .u16, .global, .range 0 10000, .PG_OSD_CONFIG, ⟨"osdConfig_t", "alt_alarm"⟩⟩,
  ⟨"osd_vbat_pos", .u16, .global, .range 0 OSD_POSCFG_MAX, .PG_OSD_CONFIG, ⟨"osdConfig_t", "item_pos[OSD_MAIN_BATT_VOLTAGE]"⟩⟩,
  ⟨"osd_rssi_pos", .u16, .global, .range 0 OSD_POSCFG_MAX, .PG_OSD_CONFIG, ⟨"osdConfig_t", "item_pos[OSD_RSSI_VALUE]"⟩⟩,
  ⟨"osd_flytimer_pos", .u16, .global, .range 0 OSD_POSCFG_MAX, .PG_OSD_CONFIG, ⟨"osdConfig_t", "item_pos[OSD_FLYTIME]"⟩⟩,
  ⟨"osd_ontimer_pos", .u16, .global, .range 0 OSD_POSCFG_MAX, .PG_OSD_CONFIG, ⟨"osdConfig_t", "item_pos[OSD_ONTIME]"⟩⟩,
  ⟨"osd_flymode_pos", .u16, .global, .range 0 OSD_POSCFG_MAX, .PG_OSD_CONFIG, ⟨"osdConfig_t", "item_pos[OSD_FLYMODE]"⟩⟩,
  ⟨"osd_throttle_pos", .u16, .global, .range 0 OSD_POSCFG_MAX, .PG_OSD_CONFIG, ⟨"osdConfig_t", "item_pos[OSD_THROTTLE_POS]"⟩⟩,
  ⟨"osd_vtx_channel_pos", .u16, .global, .range 0 OSD_POSCFG_MAX, .PG_OSD_CONFIG, ⟨"osdConfig_t", "item_pos[OSD_VTX_CHANNEL]"⟩⟩,
  ⟨"osd_crosshairs", .u16, .global, .range 0 OSD_POSCFG_MAX, .PG_OSD_CONFIG, ⟨"osdConfig_t", "item_pos[OSD_CROSSHAIRS]"⟩⟩,
  ⟨"osd_horizon_pos", .u16, .global, .range 0 OSD_POSCFG_MAX, .PG_OSD_CONFIG, ⟨"osdConfig_t", "item_pos[OSD_ARTIFICIAL_HORIZON]"⟩⟩,
  ⟨"osd_current_pos", .u16, .global, .range 0 OSD_POSCFG_MAX, .PG_OSD_CONFIG, ⟨"osdConfig_t", "item_pos[OSD_CURRENT_DRAW]"⟩⟩,
  ⟨"osd_mah_drawn_pos", .u16, .global, .range 0 OSD_POSCFG_MAX, .PG_OSD_CONFIG, ⟨"osdConfig_t", "item_pos[OSD_MAH_DRAWN]"⟩⟩
]

/-- Entries 224 to 252 of the source's valueTable (declaration order). -/
def valueTableChunk7 : List Descriptor := [
  ⟨"osd_craft_name_pos", .u16, .global, .range 0 OSD_POSCFG_MAX, .PG_OSD_CONFIG, ⟨"osdConfig_t", "item_pos[OSD_CRAFT_NAME]"⟩⟩,
  ⟨"osd_gps_speed_pos", .u16, .global, .range 0 OSD_POSCFG_MAX, .PG_OSD_CONFIG, ⟨"osdConfig_t", "item_pos[OSD_GPS_SPEED]"⟩⟩,
  ⟨"osd_gps_lon", .u16, .global, .range 0 OSD_POSCFG_MAX, .PG_OSD_CONFIG, ⟨"osdConfig_t", "item_pos[OSD_GPS_LON]"⟩⟩,
  ⟨"osd_gps_lat", .u16, .global, .range 0 OSD_POSCFG_MAX, .PG_OSD_CONFIG, ⟨"osdConfig_t", "item_pos[OSD_GPS_LAT]"⟩⟩,
  ⟨"osd_gps_sats_pos", .u16, .global, .range 0 OSD_POSCFG_MAX, .PG_OSD_CONFIG, ⟨"osdConfig_t", "item_pos[OSD_GPS_SATS]"⟩⟩,
  ⟨"osd_altitude_pos", .u16, .global, .range 0 OSD_POSCFG_MAX, .PG_OSD_CONFIG, ⟨"osdConfig_t", "item_pos[OSD_ALTITUDE]"⟩⟩,
  ⟨"osd_pid_roll_pos", .u16, .global, .range 0 OSD_POSCFG_MAX, .PG_OSD_CONFIG, ⟨"osdConfig_t", "item_pos[OSD_ROLL_PIDS]"⟩⟩,
  ⟨"osd_pid_pitch_pos", .u16, .global, .range 0 OSD_POSCFG_MAX, .PG_OSD_CONFIG, ⟨"osdConfig_t", "item_pos[OSD_PITCH_PIDS]"⟩⟩,
  ⟨"osd_pid_yaw_pos", .u16, .global, .range 0 OSD_POSCFG_MAX, .PG_OSD_CONFIG, ⟨"osdConfig_t", "item_pos[OSD_YAW_PIDS]"⟩⟩,
  ⟨"osd_debug_pos", .u16, .global, .range 0 OSD_POSCFG_MAX, .PG_OSD_CONFIG, ⟨"osdConfig_t", "item_pos[OSD_DEBUG]"⟩⟩,
  ⟨"osd_power_pos", .u16, .global, .range 0 OSD_POSCFG_MAX, .PG_OSD_CONFIG, ⟨"osdConfig_t", "item_pos[OSD_POWER]"⟩⟩,
  ⟨"osd_pidrate_profile_pos", .u16, .global, .range 0 OSD_POSCFG_MAX, .PG_OSD_CONFIG, ⟨"osdConfig_t", "item_pos[OSD_PIDRATE_PROFILE]"⟩⟩,
  ⟨"osd_battery_warning_pos", .u16, .global, .range 0 OSD_POSCFG_MAX, .PG_OSD_CONFIG, ⟨"osdConfig_t", "item_pos[OSD_MAIN_BATT_WARNING]"⟩⟩,
  ⟨"osd_avg_cell_voltage_pos", .u16, .global, .range 0 OSD_POSCFG_MAX, .PG_OSD_CONFIG, ⟨"osdConfig_t", "item_pos[OSD_AVG_CELL_VOLTAGE]"⟩⟩,
  ⟨"osd_pit_ang_pos", .u16, .global, .range 0 OSD_POSCFG_MAX, .PG_OSD_CONFIG, ⟨"osdConfig_t", "item_pos[OSD_PITCH_ANGLE]"⟩⟩,
  ⟨"osd_rol_ang_pos", .u16, .global, .range 0 OSD_POSCFG_MAX, .PG_OSD_CONFIG, ⟨"osdConfig_t", "item_pos[OSD_ROLL_ANGLE]"⟩⟩,
  ⟨"osd_battery_usage_pos", .u16, .global, .range 0 OSD_POSCFG_MAX, .PG_OSD_CONFIG, ⟨"osdConfig_t", "item_pos[OSD_MAIN_BATT_USAGE]"⟩⟩,
  ⟨"task_statistics", .i8, .global, .enumeration TABLE_OFF_ON, .PG_SYSTEM_CONFIG, ⟨"systemConfig_t", "task_statistics"⟩⟩,
  ⟨"debug_mode", .u8, .global, .enumeration TABLE_DEBUG, .PG_SYSTEM_CONFIG, ⟨"systemConfig_t", "debug_mode"⟩⟩,
  ⟨"vtx_band", .u8, .global, .range 1 5, .PG_VTX_RTC6705_CONFIG, ⟨"vtxRTC6705Config_t", "band"⟩⟩,
  ⟨"vtx_channel", .u8, .global, .range 1 8, .PG_VTX_RTC6705_CONFIG, ⟨"vtxRTC6705Config_t", "channel"⟩⟩,
  ⟨"vtx_power", .u8, .global, .range 0 (RTC6705_POWER_COUNT - 1), .PG_VTX_RTC6705_CONFIG, ⟨"vtxRTC6705Config_t", "power"⟩⟩,
  ⟨"vcd_video_system", .u8, .global, .range 0 2, .PG_VCD_CONFIG, ⟨"vcdProfile_t", "video_system"⟩⟩,
  ⟨"vcd_h_offset", .i8, .global, .range (-32) 31, .PG_VCD_CONFIG, ⟨"vcdProfile_t", "h_offset"⟩⟩,
  ⟨"vcd_v_offset", .i8, .global, .range (-15) 16, .PG_VCD_CONFIG, ⟨"vcdProfile_t", "v_offset"⟩⟩,
  ⟨"displayport_msp_col_adjust", .i8, .global, .range (-6) 0, .PG_DISPLAY_PORT_MSP_CONFIG, ⟨"displayPortProfile_t", "colAdjust"⟩⟩,
  ⟨"displayport_msp_row_adjust", .i8, .global, .range (-3) 0, .PG_DISPLAY_PORT_MSP_CONFIG, ⟨"displayPortProfile_t", "rowAdjust"⟩⟩,
  ⟨"displayport_max7456_col_adjust", .i8, .global, .range (-6) 0, .PG_DISPLAY_PORT_MSP_CONFIG, ⟨"displayPortProfile_t", "colAdjust"⟩⟩,
  ⟨"displayport_max7456_row_adjust", .i8, .global, .range (-3) 0, .PG_DISPLAY_PORT_MAX7456_CONFIG, ⟨"displayPortProfile_t", "rowAdjust"⟩⟩
]

/-- The valueTable parameter descriptor array from the source, in declaration
order, with all conditionally compiled entries included (full-feature build). -/
def valueTable : List Descriptor :=
  valueTableChunk0 ++ valueTableChunk1 ++ valueTableChunk2 ++ valueTableChunk3 ++ valueTableChunk4 ++ valueTableChunk5 ++ valueTableChunk6 ++ valueTableChunk7

/-- Number of entries of valueTable (valueTableEntryCount in the source). -/
def valueTableEntryCount : Nat := valueTable.length

/-- Case-insensitive equality of characters (tolower comparison). -/
def charCaseEq (a b : Char) : Bool := a.toLower == b.toLower

/-- Case-insensitive equality of character lists. -/
def caseEqList : List Char → List Char → Bool
  | [], [] => true
  | c :: cs, d :: ds => charCaseEq c d && caseEqList cs ds
  | _, _ => false

/-- Case-insensitive string equality (strcasecmp-style exact full match), the
comparison used for setting names and enumeration labels. -/
def caseEq (a b : String) : Bool := caseEqList a.data b.data

/-- Lookup of a list element by position. -/
def nth {α : Type} : List α → Nat → Option α
  | [], _ => none
  | x :: _, 0 => some x
  | _ :: xs, n + 1 => nth xs n

/-- Search of a descriptor list by case-insensitive name, first match. -/
def findIn : List Descriptor → String → Option Descriptor
  | [], _ => none
  | d :: ds, s => if caseEq d.name s then some d else findIn ds s

/-- Modelled from the spec: find of the Parameter Descriptor Table (4.2),
case-insensitive exact match on the full name; the CLI-side lookup code lives
outside src, the table itself is the source's valueTable. none plays the role
of UnknownParameter. -/
def find (s : String) : Option Descriptor := findIn valueTable s

/-- Errors of the Enumeration Table Set operations (4.1). -/
inductive EnumError where
  | unknownTableId
  | labelNotFound
  | ordinalOutOfRange
deriving DecidableEq, Repr

deriving instance DecidableEq for Except

/-- Modelled from the spec: lookup_table of the Enumeration Table Set (4.1),
over the source's registered lookupTables. -/
def lookup_table (id : Nat) : Option (List String) := nth lookupTables id

/-- Length of the table registered under an id (0 when unregistered). -/
def tableLen (id : Nat) : Nat := ((lookup_table id).getD []).length

/-- The label stored at an ordinal (default "" outside the table). -/
def labelD (id o : Nat) : String := ((lookup_table id).getD []).getD o ""

/-- Position of the first case-insensitive match of a label in a table. -/
def findOrdinal (s : String) : List String → Option Nat
  | [] => none
  | l :: ls => if caseEq l s then some 0 else (findOrdinal s ls).map (· + 1)

/-- Modelled from the spec: ordinal_of of the Enumeration Table Set (4.1),
case-insensitive exact label match. -/
def ordinal_of (id : Nat) (label : String) : Except EnumError Nat :=
  match lookup_table id with
  | none => .error .unknownTableId
  | some t =>
    match findOrdinal label t with
    | none => .error .labelNotFound
    | some i => .ok i

/-- Modelled from the spec: label_of of the Enumeration Table Set (4.1). -/
def label_of (id : Nat) (o : Nat) : Except EnumError String :=
  match lookup_table id with
  | none => .error .unknownTableId
  | some t =>
    match nth t o with
    | none => .error .ordinalOutOfRange
    | some s => .ok s

/-- Rejection reasons of the Validator (4.3). -/
inductive RejectReason where
  | outOfRange (lo hi : Int)
  | invalidOrdinal (n : Nat)
deriving DecidableEq, Repr

/-- Modelled from the spec: validate of the Validator (4.3); the CLI-side
validation code lives outside src, the constraints are the source's
valueTable payloads. -/
def validate (d : Descriptor) (v : Int) : Except RejectReason Unit :=
  match d.constraint with
  | .range lo hi =>
    if lo ≤ v ∧ v ≤ hi then .ok () else .error (.outOfRange lo hi)
  | .enumeration id =>
    if 0 ≤ v ∧ v < (tableLen id : Int) then .ok ()
    else .error (.invalidOrdinal (tableLen id))

/-- Per-group address information supplied by the external configuration
subsystem (6): base address, per-instance stride, instance count. -/
structure GroupInfo where
  base : Nat
  stride : Nat
  count : Nat
deriving DecidableEq, Repr

/-- Access errors of the Field Accessor (4.4). -/
inductive AccessError where
  | unknownGroup
  | profileIndexRequired
  | profileIndexOutOfRange
deriving DecidableEq, Repr

/-- Modelled from the spec: resolve_address of the Field Accessor (4.4). -/
def resolve_address (d : Descriptor) (groups : PgId → Option GroupInfo)
    (layout : FieldRef → Nat) (profileIndex : Option Nat) : Except AccessError Nat :=
  match groups d.group with
  | none => .error .unknownGroup
  | some g =>
    match d.scope with
    | .global => .ok (g.base + layout d.offset)
    | .profile =>
      match profileIndex with
      | none => .error .profileIndexRequired
      | some i =>
        if i < g.count then .ok (g.base + i * g.stride + layout d.offset)
        else .error .profileIndexOutOfRange
    | .rateProfile =>
      match profileIndex with
      | none => .error .profileIndexRequired
      | some i =>
        if i < g.count then .ok (g.base + i * g.stride + layout d.offset)
        else .error .profileIndexOutOfRange

/-- Byte-addressed memory; a cell holds one byte (reduced mod 256 on access). -/
def Mem : Type := Nat → Nat

/-- Update of one byte of memory. -/
def store (m : Mem) (a : Nat) (b : Nat) : Mem := fun x => if x = a then b else m x

/-- Two's-complement encoding of an integer into the type's byte width
(reduction mod 2^8 or 2^16). -/
def encode (t : StorageType) (v : Int) : Nat :=
  match t with
  | .u8 | .i8 => (v % 256).toNat
  | .u16 | .i16 => (v % 65536).toNat

/-- Interpretation of a raw value of the type's width per its signedness:
zero-extension for unsigned types, two's-complement sign-extension for
signed ones. -/
def decode (t : StorageType) (n : Nat) : Int :=
  match t with
  | .u8 => (n : Int)
  | .u16 => (n : Int)
  | .i8 => if (n : Int) < 128 then (n : Int) else (n : Int) - 256
  | .i16 => if (n : Int) < 32768 then (n : Int) else (n : Int) - 65536

/-- Modelled from the spec: the typed store of the Field Accessor (4.4),
narrowing the value to the exact byte width (little-endian). -/
def writeAt (t : StorageType) (m : Mem) (a : Nat) (v : Int) : Mem :=
  let n := encode t v
  if t.width = 1 then store m a (n % 256)
  else store (store m a (n % 256)) (a + 1) (n / 256 % 256)

/-- Modelled from the spec: the typed load of the Field Accessor (4.4). -/
def readAt (t : StorageType) (m : Mem) (a : Nat) : Int :=
  decode t (if t.width = 1 then m a % 256 else m a % 256 + 256 * (m (a + 1) % 256))

/-- write of the Field Accessor: descriptor-directed typed store. -/
def write (d : Descriptor) (m : Mem) (a : Nat) (v : Int) : Mem := writeAt d.type m a v

/-- read of the Field Accessor: descriptor-directed typed load. -/
def read (d : Descriptor) (m : Mem) (a : Nat) : Int := readAt d.type m a

/-- Errors of the combined external write operation. -/
inductive SetError where
  | invalid (r : RejectReason)
  | access (e : AccessError)
deriving DecidableEq, Repr

/-- Modelled from the spec (6): the external write operation; validates first,
then resolves the address and stores; on any failure the memory is returned
unchanged. -/
def set_value (d : Descriptor) (groups : PgId → Option GroupInfo)
    (layout : FieldRef → Nat) (profileIndex : Option Nat) (m : Mem) (v : Int) :
    Except SetError Unit × Mem :=
  match validate d v with
  | .error r => (.error (.invalid r), m)
  | .ok _ =>
    match resolve_address d groups layout profileIndex with
    | .error e => (.error (.access e), m)
    | .ok a => (.ok (), write d m a v)

/-- The settingsBuildCheck of the source, which is
BUILD_BUG_ON(LOOKUP_TABLE_COUNT != ARRAYLEN(lookupTables)); BUILD_BUG_ON's
abort-on-mismatch semantics and LOOKUP_TABLE_COUNT are declared outside src
and are modelled from the spec (4.5). true means the registered table list
passes the consistency check, false means the build aborts. -/
def settingsBuildCheck (registered : List (List String)) : Bool :=
  registered.length == LOOKUP_TABLE_COUNT

/-- Modelled from the spec (3): the descriptor's constraint only mentions
values representable in its storage type (a build-time invariant of the
source's static tables; bounds have the same underlying type as the field). -/
def constraintFits (d : Descriptor) : Bool :=
  match d.constraint with
  | .range lo hi => decide (d.type.typeMin ≤ lo) && decide (hi ≤ d.type.typeMax)
  | .enumeration id => decide ((tableLen id : Int) ≤ d.type.typeMax + 1)

/-- Bool-level check that an enumeration reference is below a bound. -/
def tableIdBelow (d : Descriptor) (n : Nat) : Bool :=
  match d.constraint with
  | .range _ _ => true
  | .enumeration id => decide (id < n)

/-- The gyro_sync_denom entry of valueTable. -/
def gyroSyncDenomDescr : Descriptor :=
  ⟨"gyro_sync_denom", .u8, .global, .range 1 32, .PG_GYRO_CONFIG,
    ⟨"gyroConfig_t", "gyro_sync_denom"⟩⟩

/-- The align_gyro entry of valueTable. -/
def alignGyroDescr : Descriptor :=
  ⟨"align_gyro", .u8, .global, .enumeration TABLE_ALIGNMENT, .PG_GYRO_CONFIG,
    ⟨"gyroConfig_t", "gyro_align"⟩⟩

/-- The p_pitch entry of valueTable (a Profile-scoped descriptor). -/
def pPitchDescr : Descriptor :=
  ⟨"p_pitch", .u8, .profile, .range 0 200, .PG_PID_PROFILE,
    ⟨"pidProfile_t", "pid[PID_PITCH].P"⟩⟩

/-- The displayport_msp_col_adjust entry of valueTable. -/
def displayportMspColDescr : Descriptor :=
  ⟨"displayport_msp_col_adjust", .i8, .global, .range (-6) 0,
    .PG_DISPLAY_PORT_MSP_CONFIG, ⟨"displayPortProfile_t", "colAdjust"⟩⟩

/-- The displayport_max7456_col_adjust entry of valueTable; its group id and
field are those of the MSP displayport entry above. -/
def displayportMax7456ColDescr : Descriptor :=
  ⟨"displayport_max7456_col_adjust", .i8, .global, .range (-6) 0,
    .PG_DISPLAY_PORT_MSP_CONFIG, ⟨"displayPortProfile_t", "colAdjust"⟩⟩

/-- All-zero memory, for concrete instantiations. -/
def mem0 : Mem := fun _ => 0

/-- A concrete group address table: the PID-profile group at base 1000 with
per-instance stride 64 and 3 instances. -/
def pidGroups : PgId → Option GroupInfo :=
  fun g => if g = .PG_PID_PROFILE then some ⟨1000, 64, 3⟩ else none

/-- A concrete layout placing every field at byte offset 4. -/
def layout4 : FieldRef → Nat := fun _ => 4


lemma charCaseEq_refl (c : Char) : charCaseEq c c = true := by
  simp [charCaseEq]

lemma caseEqList_refl (l : List Char) : caseEqList l l = true := by
  induction l with
  | nil => rfl
  | cons c cs ih => simp [caseEqList, charCaseEq_refl, ih]

lemma caseEq_refl (s : String) : caseEq s s = true :=
  caseEqList_refl s.data

lemma findIn_cons (d : Descriptor) (ds : List Descriptor) (s : String) :
    findIn (d :: ds) s = if caseEq d.name s then some d else findIn ds s := rfl

lemma findIn_self (l : List Descriptor)
    (h : List.Pairwise (fun a b : Descriptor => caseEq a.name b.name = false) l) :
    ∀ d ∈ l, findIn l d.name = some d := by
  induction l with
  | nil => intro d hd; cases hd
  | cons a as ih =>
    intro d hd
    rcases List.mem_cons.mp hd with rfl | hmem
    · rw [findIn_cons, caseEq_refl]
      simp
    · have hpair := (List.pairwise_cons.mp h).1 d hmem
      rw [findIn_cons, hpair]
      simp only [if_false, Bool.false_eq_true]
      exact ih (List.pairwise_cons.mp h).2 d hmem

lemma findIn_none (l : List Descriptor) (s : String)
    (h : ∀ d ∈ l, caseEq d.name s = false) : findIn l s = none := by
  induction l with
  | nil => rfl
  | cons a as ih =>
    rw [findIn_cons, h a (List.mem_cons_self a as)]
    simp only [if_false, Bool.false_eq_true]
    exact ih (fun d hd => h d (List.mem_cons_of_mem a hd))

lemma findOrdinal_none (s : String) (t : List String)
    (h : ∀ l ∈ t, caseEq l s = false) : findOrdinal s t = none := by
  induction t with
  | nil => rfl
  | cons a as ih =>
    have ha := h a (List.mem_cons_self a as)
    simp [findOrdinal, ha, ih (fun l hl => h l (List.mem_cons_of_mem a hl))]

lemma nth_none {α : Type} (l : List α) (n : Nat) (h : l.length ≤ n) :
    nth l n = none := by
  induction l generalizing n with
  | nil => cases n <;> rfl
  | cons a as ih =>
    cases n with
    | zero => simp at h
    | succ k => exact ih k (by simpa using h)

lemma nth_is_some {α : Type} (l : List α) (n : Nat) (h : n < l.length) :
    ∃ x, nth l n = some x := by
  induction l generalizing n with
  | nil => simp at h
  | cons a as ih =>
    cases n with
    | zero => exact ⟨a, rfl⟩
    | succ k => exact ih k (by simpa using h)

lemma width_pos (t : StorageType) : 0 < t.width := by
  cases t <;> simp [StorageType.width]

lemma typeMin_nonpos (t : StorageType) : t.typeMin ≤ 0 := by
  cases t <;> simp [StorageType.typeMin]

lemma store_self (m : Mem) (a b : Nat) : store m a b a = b := by
  simp [store]

lemma store_ne (m : Mem) (a b x : Nat) (h : x ≠ a) : store m a b x = m x := by
  simp [store, h]

lemma store2_lo (m : Mem) (a b0 b1 : Nat) :
    store (store m a b0) (a + 1) b1 a = b0 := by
  rw [store_ne _ _ _ _ (by omega), store_self]

lemma store2_hi (m : Mem) (a b0 b1 : Nat) :
    store (store m a b0) (a + 1) b1 (a + 1) = b1 :=
  store_self _ _ _

lemma writeAt_u8 (m : Mem) (a : Nat) (v : Int) :
    writeAt .u8 m a v = store m a (encode .u8 v % 256) := rfl

lemma writeAt_i8 (m : Mem) (a : Nat) (v : Int) :
    writeAt .i8 m a v = store m a (encode .i8 v % 256) := rfl

lemma writeAt_u16 (m : Mem) (a : Nat) (v : Int) :
    writeAt .u16 m a v =
      store (store m a (encode .u16 v % 256)) (a + 1) (encode .u16 v / 256 % 256) := rfl

lemma writeAt_i16 (m : Mem) (a : Nat) (v : Int) :
    writeAt .i16 m a v =
      store (store m a (encode .i16 v % 256)) (a + 1) (encode .i16 v / 256 % 256) := rfl

lemma readAt_u8 (m : Mem) (a : Nat) : readAt .u8 m a = (m a % 256 : Nat) := rfl

lemma readAt_u16 (m : Mem) (a : Nat) :
    readAt .u16 m a = (m a % 256 + 256 * (m (a + 1) % 256) : Nat) := rfl

lemma readAt_i8 (m : Mem) (a : Nat) :
    readAt .i8 m a =
      (if ((m a % 256 : Nat) : Int) < 128 then ((m a % 256 : Nat) : Int)
       else ((m a % 256 : Nat) : Int) - 256) := rfl

lemma readAt_i16 (m : Mem) (a : Nat) :
    readAt .i16 m a =
      (if ((m a % 256 + 256 * (m (a + 1) % 256) : Nat) : Int) < 32768
       then ((m a % 256 + 256 * (m (a + 1) % 256) : Nat) : Int)
       else ((m a % 256 + 256 * (m (a + 1) % 256) : Nat) : Int) - 65536) := rfl

lemma encode_u8 (v : Int) : encode .u8 v = (v % 256).toNat := rfl

lemma encode_i8 (v : Int) : encode .i8 v = (v % 256).toNat := rfl

lemma encode_u16 (v : Int) : encode .u16 v = (v % 65536).toNat := rfl

lemma encode_i16 (v : Int) : encode .i16 v = (v % 65536).toNat := rfl

lemma roundtrip (t : StorageType) (m : Mem) (a : Nat) (v : Int)
    (h1 : t.typeMin ≤ v) (h2 : v ≤ t.typeMax) :
    readAt t (writeAt t m a v) a = v := by
  cases t with
  | u8 =>
    simp only [StorageType.typeMin, StorageType.typeMax] at h1 h2
    rw [writeAt_u8, readAt_u8, store_self, encode_u8]
    omega
  | i8 =>
    simp only [StorageType.typeMin, StorageType.typeMax] at h1 h2
    rw [writeAt_i8, readAt_i8, store_self, encode_i8]
    split <;> omega
  | u16 =>
    simp only [StorageType.typeMin, StorageType.typeMax] at h1 h2
    rw [writeAt_u16, readAt_u16, store2_lo, store2_hi, encode_u16]
    omega
  | i16 =>
    simp only [StorageType.typeMin, StorageType.typeMax] at h1 h2
    rw [writeAt_i16, readAt_i16, store2_lo, store2_hi, encode_i16]
    split <;> omega

lemma writeAt_outside (t : StorageType) (m : Mem) (a : Nat) (v : Int) (x : Nat)
    (h : x < a ∨ a + t.width ≤ x) : writeAt t m a v x = m x := by
  cases t with
  | u8 =>
    simp only [StorageType.width] at h
    rw [writeAt_u8, store_ne _ _ _ _ (by omega)]
  | i8 =>
    simp only [StorageType.width] at h
    rw [writeAt_i8, store_ne _ _ _ _ (by omega)]
  | u16 =>
    simp only [StorageType.width] at h
    rw [writeAt_u16, store_ne _ _ _ _ (by omega), store_ne _ _ _ _ (by omega)]
  | i16 =>
    simp only [StorageType.width] at h
    rw [writeAt_i16, store_ne _ _ _ _ (by omega), store_ne _ _ _ _ (by omega)]

lemma readAt_writeAt_ne (t : StorageType) (m : Mem) (a x : Nat) (v : Int)
    (h : a + t.width ≤ x ∨ x + t.width ≤ a) :
    readAt t (writeAt t m a v) x = readAt t m x := by
  cases t with
  | u8 =>
    simp only [StorageType.width] at h
    rw [readAt_u8, readAt_u8, writeAt_outside .u8 m a v x (by simp [StorageType.width]; omega)]
  | i8 =>
    simp only [StorageType.width] at h
    rw [readAt_i8, readAt_i8, writeAt_outside .i8 m a v x (by simp [StorageType.width]; omega)]
  | u16 =>
    simp only [StorageType.width] at h
    rw [readAt_u16, readAt_u16, writeAt_outside .u16 m a v x (by simp [StorageType.width]; omega),
      writeAt_outside .u16 m a v (x + 1) (by simp [StorageType.width]; omega)]
  | i16 =>
    simp only [StorageType.width] at h
    rw [readAt_i16, readAt_i16, writeAt_outside .i16 m a v x (by simp [StorageType.width]; omega),
      writeAt_outside .i16 m a v (x + 1) (by simp [StorageType.width]; omega)]

lemma tableIdBelow_spec (d : Descriptor) (n : Nat) (h : tableIdBelow d n = true) :
    ∀ id, d.constraint = .enumeration id → id < n := by
  intro id hc
  simp only [tableIdBelow, hc, decide_eq_true_eq] at h
  exact h


/-- Claim C1: a Range constraint accepts exactly the inclusive interval
lo..hi; an out-of-interval candidate is rejected with OutOfRange carrying the
bounds, and with a lower bound of 0 every negative candidate is rejected; the
valueTable's gyro_sync_denom descriptor is a u8 Global setting with Range 1..32
that rejects 0 and 33 and accepts 1 and 32. -/
theorem claim_C1_range_validation :
    (∀ (d : Descriptor) (lo hi v : Int), d.constraint = .range lo hi →
      ((validate d v = .ok () ↔ lo ≤ v ∧ v ≤ hi) ∧
       (¬(lo ≤ v ∧ v ≤ hi) → validate d v = .error (.outOfRange lo hi)) ∧
       (lo = 0 → v < 0 → validate d v = .error (.outOfRange lo hi)))) ∧
    find ("gyro_sync_denom") = some gyroSyncDenomDescr ∧
    gyroSyncDenomDescr.type = .u8 ∧
    gyroSyncDenomDescr.scope = .global ∧
    gyroSyncDenomDescr.constraint = .range 1 32 ∧
    validate gyroSyncDenomDescr 0 = .error (.outOfRange 1 32) ∧
    validate gyroSyncDenomDescr 1 = .ok () ∧
    validate gyroSyncDenomDescr 33 = .error (.outOfRange 1 32) ∧
    validate gyroSyncDenomDescr 32 = .ok () := by
  refine ⟨?_, by decide, rfl, rfl, rfl, by decide, by decide, by decide, by decide⟩
  intro d lo hi v hc
  simp only [validate, hc]
  refine ⟨?_, ?_, ?_⟩
  · split
    · rename_i h; simp [h]
    · rename_i h; simp [h]
  · intro h; rw [if_neg h]
  · intro h0 hv
    rw [if_neg (by omega)]

/-- Witness for claim C1 at the concrete candidate 5. -/
theorem claim_C1_witness : validate gyroSyncDenomDescr 5 = .ok () :=
  (claim_C1_range_validation.1 gyroSyncDenomDescr 1 32 5 rfl).1.mpr (by norm_num)

/-- Claim C2: an Enumeration constraint accepts exactly the ordinals 0..n-1 of
the referenced table and rejects anything else with InvalidOrdinal carrying the
table length; the valueTable's align_gyro descriptor references the ALIGNMENT
table of exactly 9 labels, accepting 8 and rejecting 9 and -1. -/
theorem claim_C2_enumeration_validation :
    (∀ (d : Descriptor) (id : Nat) (v : Int), d.constraint = .enumeration id →
      ((validate d v = .ok () ↔ 0 ≤ v ∧ v < (tableLen id : Int)) ∧
       (¬(0 ≤ v ∧ v < (tableLen id : Int)) →
         validate d v = .error (.invalidOrdinal (tableLen id))))) ∧
    find ("align_gyro") = some alignGyroDescr ∧
    alignGyroDescr.constraint = .enumeration TABLE_ALIGNMENT ∧
    tableLen TABLE_ALIGNMENT = 9 ∧
    lookupTableAlignment.length = 9 ∧
    validate alignGyroDescr 8 = .ok () ∧
    validate alignGyroDescr 9 = .error (.invalidOrdinal 9) ∧
    validate alignGyroDescr (-1) = .error (.invalidOrdinal 9) := by
  refine ⟨?_, by decide, rfl, by decide, by decide, by decide, by decide, by decide⟩
  intro d id v hc
  simp only [validate, hc]
  constructor
  · split
    · rename_i h; simp [h]
    · rename_i h; simp [h]
  · intro h; rw [if_neg h]

/-- Witness for claim C2 at the concrete ordinal 3. -/
theorem claim_C2_witness : validate alignGyroDescr 3 = .ok () :=
  (claim_C2_enumeration_validation.1 alignGyroDescr TABLE_ALIGNMENT 3 rfl).1.mpr (by decide)

/-- Claim C3: descriptor names are pairwise distinct under case-insensitive
comparison, find round-trips every descriptor of the table to itself, and find
on a name matching no descriptor reports failure (none, the UnknownParameter
outcome). -/
theorem claim_C3_find_roundtrip :
    List.Pairwise (fun a b : Descriptor => caseEq a.name b.name = false) valueTable ∧
    (∀ d ∈ valueTable, find d.name = some d) ∧
    (∀ s : String, (∀ d ∈ valueTable, caseEq d.name s = false) → find s = none) := by
  have hpair : List.Pairwise (fun a b : Descriptor => caseEq a.name b.name = false)
      valueTable := by decide
  exact ⟨hpair, findIn_self valueTable hpair, fun s h => findIn_none valueTable s h⟩

/-- Witness for claim C3 at the gyro_sync_denom descriptor. -/
theorem claim_C3_witness : find gyroSyncDenomDescr.name = some gyroSyncDenomDescr :=
  claim_C3_find_roundtrip.2.1 gyroSyncDenomDescr (by decide)

/-- Claim C4: for a Global descriptor resolve_address yields group base plus
field offset and ignores any supplied profile index; for a Profile- or
Rate-profile-scoped descriptor it requires an index (ProfileIndexRequired when
absent), rejects an index at or above the instance count
(ProfileIndexOutOfRange), and otherwise yields base + index * stride +
offset. -/
theorem claim_C4_resolve_address :
    ∀ (d : Descriptor) (groups : PgId → Option GroupInfo) (layout : FieldRef → Nat)
      (g : GroupInfo), groups d.group = some g →
      ((d.scope = .global →
         ∀ pi, resolve_address d groups layout pi = .ok (g.base + layout d.offset)) ∧
       (d.scope ≠ .global →
         resolve_address d groups layout none = .error .profileIndexRequired ∧
         (∀ i, i < g.count →
           resolve_address d groups layout (some i) =
             .ok (g.base + i * g.stride + layout d.offset)) ∧
         (∀ i, g.count ≤ i →
           resolve_address d groups layout (some i) =
             .error .profileIndexOutOfRange))) := by
  intro d groups layout g hg
  constructor
  · intro hs pi
    simp [resolve_address, hg, hs]
  · intro hs
    rcases hscope : d.scope with _ | _ | _
    · exact absurd hscope hs
    · refine ⟨by simp [resolve_address, hg, hscope], ?_, ?_⟩
      · intro i hi; simp [resolve_address, hg, hscope, hi]
      · intro i hi
        simp only [resolve_address, hg, hscope]
        rw [if_neg (by omega)]
    · refine ⟨by simp [resolve_address, hg, hscope], ?_, ?_⟩
      · intro i hi; simp [resolve_address, hg, hscope, hi]
      · intro i hi
        simp only [resolve_address, hg, hscope]
        rw [if_neg (by omega)]

/-- Witness for claim C4: the p_pitch descriptor with base 1000, stride 64,
offset 4 and profile index 2 resolves to 1000 + 2*64 + 4 = 1132; a missing
index fails with ProfileIndexRequired and index 3 of 3 is out of range. -/
theorem claim_C4_witness :
    resolve_address pPitchDescr pidGroups layout4 (some 2) = .ok 1132 ∧
    resolve_address pPitchDescr pidGroups layout4 none = .error .profileIndexRequired ∧
    resolve_address pPitchDescr pidGroups layout4 (some 3) =
      .error .profileIndexOutOfRange := by
  have h := claim_C4_resolve_address pPitchDescr pidGroups layout4 ⟨1000, 64, 3⟩ rfl
  have h2 := h.2 (by decide)
  exact ⟨(h2.2.1 2 (by norm_num)).trans (by decide), h2.1, h2.2.2 3 (by norm_num)⟩

/-- Claim C5: every descriptor of valueTable has a constraint representable in
its storage type, and for any descriptor with that property, a value accepted
by validate survives a write-then-read round trip at any address unchanged. -/
theorem claim_C5_write_read_roundtrip :
    (∀ d ∈ valueTable, constraintFits d = true) ∧
    (∀ (d : Descriptor) (v : Int) (m : Mem) (a : Nat),
      constraintFits d = true → validate d v = .ok () →
      read d (write d m a v) a = v) := by
  constructor
  · decide
  · intro d v m a hfit hval
    have hb : d.type.typeMin ≤ v ∧ v ≤ d.type.typeMax := by
      rcases hc : d.constraint with ⟨lo, hi⟩ | ⟨id⟩
      · simp only [validate, hc] at hval
        simp only [constraintFits, hc, Bool.and_eq_true, decide_eq_true_eq] at hfit
        split at hval
        · rename_i h; exact ⟨by omega, by omega⟩
        · exact absurd hval (by simp)
      · simp only [validate, hc] at hval
        simp only [constraintFits, hc, decide_eq_true_eq] at hfit
        have hmin := typeMin_nonpos d.type
        split at hval
        · rename_i h; exact ⟨by omega, by omega⟩
        · exact absurd hval (by simp)
    exact roundtrip d.type m a v hb.1 hb.2

/-- Witness for claim C5: writing 7 through gyro_sync_denom and reading it
back at address 100 yields 7. -/
theorem claim_C5_witness :
    read gyroSyncDenomDescr (write gyroSyncDenomDescr mem0 100 7) 100 = 7 :=
  claim_C5_write_read_roundtrip.2 gyroSyncDenomDescr 7 mem0 100 (by decide) (by decide)

/-- Claim C6: for a Profile-scoped descriptor whose field lies within the
per-instance stride, writing at the address of profile index i leaves the
value read at the address of a different profile index j unchanged. -/
theorem claim_C6_profile_isolation :
    ∀ (d : Descriptor) (groups : PgId → Option GroupInfo) (layout : FieldRef → Nat)
      (g : GroupInfo) (i j ai aj : Nat) (m : Mem) (v : Int),
      d.scope = .profile →
      groups d.group = some g →
      layout d.offset + d.type.width ≤ g.stride →
      i ≠ j →
      resolve_address d groups layout (some i) = .ok ai →
      resolve_address d groups layout (some j) = .ok aj →
      read d (write d m ai v) aj = read d m aj := by
  intro d groups layout g i j ai aj m v hscope hg hfit hij hri hrj
  simp only [resolve_address, hg, hscope] at hri hrj
  split at hri
  · split at hrj
    · simp only [Except.ok.injEq] at hri hrj
      subst hri
      subst hrj
      have hw := width_pos d.type
      have hsep :
          (g.base + i * g.stride + layout d.offset) + d.type.width ≤
            (g.base + j * g.stride + layout d.offset) ∨
          (g.base + j * g.stride + layout d.offset) + d.type.width ≤
            (g.base + i * g.stride + layout d.offset) := by
        rcases Nat.lt_or_ge i j with hlt | hge
        · left
          have hmul := Nat.mul_le_mul_right g.stride (Nat.succ_le_of_lt hlt)
          rw [Nat.succ_mul] at hmul
          omega
        · right
          have hmul :=
            Nat.mul_le_mul_right g.stride (Nat.succ_le_of_lt (by omega : j < i))
          rw [Nat.succ_mul] at hmul
          omega
      exact readAt_writeAt_ne d.type m _ _ v hsep
    · exact absurd hrj (by simp)
  · exact absurd hri (by simp)

/-- Witness for claim C6: writing 55 through p_pitch at the profile-2 address
1132 does not change the byte read at the profile-1 address 1068. -/
theorem claim_C6_witness :
    read pPitchDescr (write pPitchDescr mem0 1132 55) 1068 = read pPitchDescr mem0 1068 :=
  claim_C6_profile_isolation pPitchDescr pidGroups layout4 ⟨1000, 64, 3⟩ 2 1 1132 1068
    mem0 55 rfl rfl (by decide) (by decide) (by decide) (by decide)

/-- Claim C7: a candidate outside the constraint is rejected with OutOfRange
carrying the bounds or InvalidOrdinal carrying the table length, never
clamped: the combined write operation returns the rejection and leaves the
memory unchanged. -/
theorem claim_C7_no_clamping :
    ∀ (d : Descriptor) (groups : PgId → Option GroupInfo) (layout : FieldRef → Nat)
      (pi : Option Nat) (m : Mem) (v : Int) (r : RejectReason),
      validate d v = .error r →
      set_value d groups layout pi m v = (.error (.invalid r), m) ∧
      ((∃ lo hi, d.constraint = .range lo hi ∧ r = .outOfRange lo hi ∧
          ¬(lo ≤ v ∧ v ≤ hi)) ∨
       (∃ id, d.constraint = .enumeration id ∧ r = .invalidOrdinal (tableLen id) ∧
          ¬(0 ≤ v ∧ v < (tableLen id : Int)))) := by
  intro d groups layout pi m v r hval
  refine ⟨by simp [set_value, hval], ?_⟩
  rcases hc : d.constraint with ⟨lo, hi⟩ | ⟨id⟩
  · left
    simp only [validate, hc] at hval
    by_cases h : lo ≤ v ∧ v ≤ hi
    · rw [if_pos h] at hval
      exact absurd hval (by simp)
    · rw [if_neg h] at hval
      cases hval
      exact ⟨lo, hi, rfl, rfl, h⟩
  · right
    simp only [validate, hc] at hval
    by_cases h : 0 ≤ v ∧ v < (tableLen id : Int)
    · rw [if_pos h] at hval
      exact absurd hval (by simp)
    · rw [if_neg h] at hval
      cases hval
      exact ⟨id, rfl, rfl, h⟩

/-- Witness for claim C7: the rejected write of 0 through gyro_sync_denom
reports OutOfRange 1 32 and returns the memory unchanged. -/
theorem claim_C7_witness :
    set_value gyroSyncDenomDescr pidGroups layout4 none mem0 0 =
      (.error (.invalid (.outOfRange 1 32)), mem0) :=
  (claim_C7_no_clamping gyroSyncDenomDescr pidGroups layout4 none mem0 0
    (.outOfRange 1 32) (by decide)).1

/-- Claim C8: for every registered table id and in-range ordinal, label_of
yields the stored label and ordinal_of maps that label (case-insensitively)
back to the same ordinal; label_of rejects an ordinal at or past the table
length with OrdinalOutOfRange and ordinal_of rejects an absent label with
LabelNotFound; in the ALIGNMENT table, CW90 and ordinal 2 correspond. -/
theorem claim_C8_label_ordinal_roundtrip :
    (∀ id, id < LOOKUP_TABLE_COUNT → ∀ o, o < tableLen id →
      label_of id o = .ok (labelD id o) ∧ ordinal_of id (labelD id o) = .ok o) ∧
    (∀ id o, id < LOOKUP_TABLE_COUNT → tableLen id ≤ o →
      label_of id o = .error .ordinalOutOfRange) ∧
    (∀ (id : Nat) (s : String) (t : List String), lookup_table id = some t →
      (∀ l ∈ t, caseEq l s = false) → ordinal_of id s = .error .labelNotFound) ∧
    ordinal_of TABLE_ALIGNMENT ("CW90") = .ok 2 ∧
    label_of TABLE_ALIGNMENT 2 = .ok ("CW90") := by
  refine ⟨by decide, ?_, ?_, by decide, by decide⟩
  · intro id o hid ho
    have hcnt : lookupTables.length = LOOKUP_TABLE_COUNT := by decide
    obtain ⟨t, ht⟩ := nth_is_some lookupTables id (by omega)
    have hlen : tableLen id = t.length := by simp [tableLen, lookup_table, ht]
    simp only [label_of, lookup_table, ht]
    rw [nth_none t o (by omega)]
  · intro id s t ht hnone
    simp only [ordinal_of, ht]
    rw [findOrdinal_none s t hnone]

/-- Witness for claim C8 at the ALIGNMENT table and ordinal 2. -/
theorem claim_C8_witness :
    label_of TABLE_ALIGNMENT 2 = .ok (labelD TABLE_ALIGNMENT 2) ∧
    ordinal_of TABLE_ALIGNMENT (labelD TABLE_ALIGNMENT 2) = .ok 2 :=
  claim_C8_label_ordinal_roundtrip.1 TABLE_ALIGNMENT (by decide) 2 (by decide)

/-- Claim C9: the build check fails exactly when the declared enumeration
table count differs from the number registered or some descriptor's table
reference does not resolve in the registered set (the latter forces the
former since every reference is below the declared count); the source's full
registration passes and a set missing one table fails. -/
theorem claim_C9_build_check :
    (∀ registered : List (List String),
      settingsBuildCheck registered = false ↔
        (registered.length ≠ LOOKUP_TABLE_COUNT ∨
         ∃ d ∈ valueTable, ∃ id, d.constraint = .enumeration id ∧
           ¬ id < registered.length)) ∧
    settingsBuildCheck lookupTables = true ∧
    settingsBuildCheck (lookupTables.drop 1) = false ∧
    (∀ d ∈ valueTable, tableIdBelow d lookupTables.length = true) := by
  have hids : ∀ d ∈ valueTable, tableIdBelow d LOOKUP_TABLE_COUNT = true := by decide
  refine ⟨?_, by decide, by decide, by decide⟩
  intro registered
  constructor
  · intro h
    left
    simp only [settingsBuildCheck, beq_eq_false_iff_ne, ne_eq] at h
    exact h
  · rintro (h | ⟨d, hd, id, hc, hlt⟩)
    · simp only [settingsBuildCheck, beq_eq_false_iff_ne, ne_eq]
      exact h
    · have hid : id < LOOKUP_TABLE_COUNT :=
        tableIdBelow_spec d LOOKUP_TABLE_COUNT (hids d hd) id hc
      simp only [settingsBuildCheck, beq_eq_false_iff_ne, ne_eq]
      omega

/-- Witness for claim C9: a registration list missing one of the declared
tables fails the consistency check. -/
theorem claim_C9_witness :
    settingsBuildCheck (lookupTableUnit :: lookupTables.drop 2) = false :=
  (claim_C9_build_check.1 (lookupTableUnit :: lookupTables.drop 2)).mpr
    (.inl (by decide))

/-- Claim C10: valueTable holds two descriptors with different names,
displayport_msp_col_adjust and displayport_max7456_col_adjust, that carry the
same group id PG_DISPLAY_PORT_MSP_CONFIG and the same colAdjust field offset,
so they resolve to the same address and a validated write through either is
read back through the other. -/
theorem claim_C10_aliased_descriptors :
    displayportMspColDescr ∈ valueTable ∧
    displayportMax7456ColDescr ∈ valueTable ∧
    displayportMspColDescr.name ≠ displayportMax7456ColDescr.name ∧
    displayportMspColDescr.group = displayportMax7456ColDescr.group ∧
    displayportMspColDescr.group = .PG_DISPLAY_PORT_MSP_CONFIG ∧
    displayportMspColDescr.offset = displayportMax7456ColDescr.offset ∧
    (∀ (groups : PgId → Option GroupInfo) (layout : FieldRef → Nat)
       (pi pj : Option Nat),
      resolve_address displayportMspColDescr groups layout pi =
        resolve_address displayportMax7456ColDescr groups layout pj) ∧
    (∀ (m : Mem) (a : Nat) (v : Int), validate displayportMspColDescr v = .ok () →
      read displayportMax7456ColDescr (write displayportMspColDescr m a v) a = v) ∧
    (∀ (m : Mem) (a : Nat) (v : Int),
      validate displayportMax7456ColDescr v = .ok () →
      read displayportMspColDescr (write displayportMax7456ColDescr m a v) a = v) := by
  refine ⟨by decide, by decide, by decide, rfl, rfl, rfl, ?_, ?_, ?_⟩
  · intro groups layout pi pj
    rfl
  · intro m a v hval
    have hb : (-6 : Int) ≤ v ∧ v ≤ 0 := by
      simp only [validate, displayportMspColDescr] at hval
      split at hval
      · rename_i h; exact h
      · exact absurd hval (by simp)
    exact roundtrip .i8 m a v (by show (-128 : Int) ≤ v; omega)
      (by show v ≤ (127 : Int); omega)
  · intro m a v hval
    have hb : (-6 : Int) ≤ v ∧ v ≤ 0 := by
      simp only [validate, displayportMax7456ColDescr] at hval
      split at hval
      · rename_i h; exact h
      · exact absurd hval (by simp)
    exact roundtrip .i8 m a v (by show (-128 : Int) ≤ v; omega)
      (by show v ≤ (127 : Int); omega)

/-- Witness for claim C10: the value -3 written through the MSP descriptor is
read back through the MAX7456 descriptor. -/
theorem claim_C10_witness :
    read displayportMax7456ColDescr (write displayportMspColDescr mem0 50 (-3)) 50 = -3 :=
  claim_C10_aliased_descriptors.2.2.2.2.2.2.2.1 mem0 50 (-3) (by decide)

end Betaflight
